import Mathlib

/-!
Verification development for the dodgeball game server: a shallow embedding of
the server-side Match Engine (`Game.js`), the session/room state machine
(`Room.js`, `index.js`) and the room-id utilities, together with theorems about
the per-tick simulation and the session protocol.

Modelling conventions:
* JavaScript numbers holding pixel positions, velocities and sizes are modelled
  as `ℚ` (they take half-integer values, e.g. gravity `0.5` and AI spawn
  positions such as `487.5`); counters and timers are `ℤ`.
* Mutation of `this.state` is modelled by explicit state passing, in the exact
  statement order of the source.
* `Math.random()`-driven AI decisions are modelled by universally quantified
  `Input` values: every theorem quantifying over such an input holds for every
  possible random outcome.
* JavaScript strings (room ids) are modelled as `List Char`.
-/

namespace Dodgeball

/-! ### Game constants (Game.js lines 1-12) -/

def CANVAS_WIDTH : ℚ := 800
def GROUND_Y : ℚ := 350
def PLAYER_SPEED : ℚ := 5
def JUMP_FORCE : ℚ := -12
def GRAVITY : ℚ := 1/2
def BALL_SPEED : ℚ := 10
def RESPAWN_TIME : ℤ := 90
def INVINCIBLE_TIME : ℤ := 120
def POWERUP_TIME : ℤ := 300
def POWERUP_BALL_SIZE : ℚ := 16

/-! ### Data model -/

inductive Side where
  | left
  | right
deriving DecidableEq

inductive GState where
  | playing
  | gameover
  | levelcomplete
deriving DecidableEq

inductive Winner where
  | player1
  | player2
  | ai
deriving DecidableEq

/-- An input intent: the `keys` record buffered by `handleInput` or produced by
the AI input generators. -/
structure Input where
  left : Bool
  right : Bool
  jump : Bool
  duck : Bool
  throw : Bool
deriving DecidableEq

/-- The empty input used when `roomPlayer.currentInput` is absent
(`roomPlayer.currentInput || {}`: every field of `{}` is falsy). -/
def emptyInput : Input := ⟨false, false, false, false, false⟩

/-- A combatant, as built by `Game.createPlayer`.  The JS `id` field (only used
as a respawn-timer key) and the dynamically added `isAI` marker (only echoed in
broadcasts) are not part of the simulation state. -/
structure Player where
  x : ℚ
  y : ℚ
  side : Side
  velocityY : ℚ
  isJumping : Bool
  isDucking : Bool
  lives : ℤ
  hasBall : Bool
  isInvincible : Bool
  invincibleTimer : ℤ
  facingRight : Bool
  throwAnimation : ℤ
  noHitTimer : ℤ
  hasPowerup : Bool
deriving DecidableEq

/-- A projectile.  `throwBallFromAI` pushes no `size`/`isPowered` fields; every
read site uses `ball.size || 8`, so AI balls are modelled with `size = 8`,
`isPowered = false`. -/
structure Ball where
  x : ℚ
  y : ℚ
  velocityX : ℚ
  owner : Side
  active : Bool
  size : ℚ
  isPowered : Bool
deriving DecidableEq

/-- The Match Engine's `this.state` together with the tick-timer handle
(`this.tickInterval`, modelled by `timerOn`).  Solo-mode AI combatants are kept
paired with their respawn timer (`respawnTimers[ai.id]` in the source, keyed by
the id `ai{i+1}` which coincides with the list position). -/
structure GameSt where
  gameState : GState
  level : ℕ
  player1 : Player
  player2 : Option Player
  aiPlayers : List (Player × ℤ)
  balls : List Ball
  respawnP1 : ℤ
  respawnP2 : ℤ
  winner : Option Winner
  timerOn : Bool
deriving DecidableEq

/-! ### Game.createPlayer / Game.createAIPlayers -/

def createPlayer (x : ℚ) (side : Side) : Player :=
  { x := x
    y := GROUND_Y
    side := side
    velocityY := 0
    isJumping := false
    isDucking := false
    lives := 3
    hasBall := true
    isInvincible := false
    invincibleTimer := 0
    facingRight := side == Side.left
    throwAnimation := 0
    noHitTimer := 0
    hasPowerup := false }

/-- `Game.createAIPlayers(count)`: AI opponents spread across the right side,
each with respawn timer 0. -/
def createAIPlayers (count : ℕ) : List (Player × ℤ) :=
  let rightStart : ℚ := CANVAS_WIDTH / 2 + 50
  let rightEnd : ℚ := CANVAS_WIDTH - 50
  let spacing : ℚ := (rightEnd - rightStart) / (max 1 count : ℕ)
  (List.range count).map fun i =>
    (createPlayer (rightStart + spacing * ((i : ℚ) + 1/2)) Side.right, 0)

/-- The `Game` constructor state (with `start()` already called, so the tick
timer is on).  `numAI = room.isSinglePlayer ? level : 1`; in two-player mode a
`player2` is created instead. -/
def initState (isSinglePlayer : Bool) (level : ℕ) : GameSt :=
  let lvl := if level = 0 then 1 else level
  { gameState := GState.playing
    level := lvl
    player1 := createPlayer 150 Side.left
    player2 := if isSinglePlayer then none else some (createPlayer 650 Side.right)
    aiPlayers := if isSinglePlayer then createAIPlayers lvl else []
    balls := []
    respawnP1 := 0
    respawnP2 := 0
    winner := none
    timerOn := true }

/-! ### Game.throwBall / Game.processPlayerInput -/

/-- `Game.throwBall(playerNumber)`: returns the updated player, ball list and
respawn timer (`respawnTimers[playerNumber]`). -/
def throwBall (p : Player) (balls : List Ball) (rt : ℤ) : Player × List Ball × ℤ :=
  if !p.hasBall then (p, balls, rt) else
  let hasPowerup := p.hasPowerup
  let ballSize : ℚ := if hasPowerup then POWERUP_BALL_SIZE else 8
  let p := if hasPowerup then { p with hasPowerup := false, noHitTimer := 0 } else p
  let p := { p with hasBall := false, throwAnimation := 10 }
  let height : ℚ := if p.isDucking then 35 else 60
  let armY := p.y - height + 15
  let direction : ℚ := if p.facingRight then 1 else -1
  let ballX := p.x + direction * 23
  (p, balls ++ [⟨ballX, armY, direction * BALL_SPEED, p.side, true, ballSize, hasPowerup⟩],
    RESPAWN_TIME)

/-- Result of `Game.processPlayerInput`: the updated game player, ball list,
respawn timer, and the (possibly throw-cleared) `roomPlayer.currentInput`
buffer. -/
structure ProcResult where
  player : Player
  balls : List Ball
  respawn : ℤ
  buffer : Option Input
deriving DecidableEq

/-- The `input.left` block of `Game.processPlayerInput`: move left bounded by
the side-dependent boundary and face left. -/
def applyLeft (input : Input) (p : Player) : Player :=
  if input.left then
    let boundary : ℚ := if p.side == Side.left then 30 else CANVAS_WIDTH / 2 + 30
    let p := if p.x > boundary then { p with x := p.x - PLAYER_SPEED } else p
    { p with facingRight := false }
  else p

/-- The `input.right` block of `Game.processPlayerInput`. -/
def applyRight (input : Input) (p : Player) : Player :=
  if input.right then
    let boundary : ℚ := if p.side == Side.left then CANVAS_WIDTH / 2 - 30 else CANVAS_WIDTH - 30
    let p := if p.x < boundary then { p with x := p.x + PLAYER_SPEED } else p
    { p with facingRight := true }
  else p

/-- The `input.jump` block of `Game.processPlayerInput` (also used verbatim by
`Game.processAIPlayerInput`). -/
def applyJump (input : Input) (p : Player) : Player :=
  if input.jump && !p.isJumping then { p with velocityY := JUMP_FORCE, isJumping := true } else p

/-- `gamePlayer.isDucking = !!input.duck`. -/
def applyDuck (input : Input) (p : Player) : Player :=
  { p with isDucking := input.duck }

/-- The four movement/stance blocks of `Game.processPlayerInput`, in source
order. -/
def moveSteps (input : Input) (p : Player) : Player :=
  applyDuck input (applyJump input (applyRight input (applyLeft input p)))

/-- `Game.processPlayerInput(playerNumber)`.  `isAI` is `roomPlayer.isAI`;
`gen` is the value `generateAIInput` would return this tick (a stochastic
choice, universally quantified at use sites); `buf` is
`roomPlayer.currentInput`.  The four statement blocks run in source order,
then the throw block fires and clears the buffered throw flag. -/
def processPlayerInput (isAI : Bool) (gen : Input) (buf : Option Input) (p : Player)
    (balls : List Ball) (rt : ℤ) : ProcResult :=
  let input := if isAI then gen else buf.getD emptyInput
  let p := moveSteps input p
  if input.throw && p.hasBall then
    let r := throwBall p balls rt
    ⟨r.1, r.2.1, r.2.2, buf.map fun b => { b with throw := false }⟩
  else ⟨p, balls, rt, buf⟩

/-! ### Game.updatePlayer / Game.updateAIPlayer -/

/-- The gravity/integration statements of `Game.updatePlayer` /
`Game.updateAIPlayer`. -/
def applyGravity (p : Player) : Player :=
  let p := { p with velocityY := p.velocityY + GRAVITY }
  { p with y := p.y + p.velocityY }

/-- The ground-collision block. -/
def applyGround (p : Player) : Player :=
  if p.y ≥ GROUND_Y then { p with y := GROUND_Y, velocityY := 0, isJumping := false } else p

/-- The invincibility-countdown block. -/
def tickInvincibility (p : Player) : Player :=
  if p.isInvincible then
    let p := { p with invincibleTimer := p.invincibleTimer - 1 }
    if p.invincibleTimer ≤ 0 then { p with isInvincible := false } else p
  else p

/-- The throw-animation-countdown block. -/
def tickThrowAnimation (p : Player) : Player :=
  if p.throwAnimation > 0 then { p with throwAnimation := p.throwAnimation - 1 } else p

/-- The power-up-charge block of `Game.updatePlayer` (human players only). -/
def tickPowerup (p : Player) : Player :=
  let p := { p with noHitTimer := p.noHitTimer + 1 }
  if p.noHitTimer ≥ POWERUP_TIME && !p.hasPowerup then { p with hasPowerup := true } else p

/-- `Game.updatePlayer(playerNumber)`; `isAI` is `roomPlayer.isAI` (only human
players accumulate the no-hit power-up charge).  The statement blocks run in
source order. -/
def updatePlayer (isAI : Bool) (p : Player) : Player :=
  let p := tickThrowAnimation (tickInvincibility (applyGround (applyGravity p)))
  if !isAI then tickPowerup p else p

/-- `Game.updateAIPlayer(ai)`: physics and timers for a solo-mode AI combatant;
dead AI combatants (`lives <= 0`) are skipped entirely, and no power-up charge
accumulates. -/
def updateAIPlayer (ai : Player) : Player :=
  if ai.lives ≤ 0 then ai
  else tickThrowAnimation (tickInvincibility (applyGround (applyGravity ai)))

/-! ### Game.throwBallFromAI / Game.processAIPlayerInput -/

/-- `Game.throwBallFromAI(ai)`: returns the updated AI and the thrown ball (if
any); the caller also sets `respawnTimers[ai.id] = RESPAWN_TIME` exactly when a
ball is produced. -/
def throwBallFromAI (ai : Player) : Player × Option Ball :=
  if !ai.hasBall then (ai, none) else
  let ai := { ai with hasBall := false, throwAnimation := 10 }
  let height : ℚ := if ai.isDucking then 35 else 60
  let armY := ai.y - height + 15
  let direction : ℚ := if ai.facingRight then 1 else -1
  let ballX := ai.x + direction * 23
  (ai, some ⟨ballX, armY, direction * BALL_SPEED, ai.side, true, 8, false⟩)

/-- The `input.left` block of `Game.processAIPlayerInput` (AI combatants are
bounded to the right half unconditionally). -/
def aiApplyLeft (input : Input) (ai : Player) : Player :=
  if input.left then
    let ai := if ai.x > CANVAS_WIDTH / 2 + 30 then { ai with x := ai.x - PLAYER_SPEED } else ai
    { ai with facingRight := false }
  else ai

/-- The `input.right` block of `Game.processAIPlayerInput`. -/
def aiApplyRight (input : Input) (ai : Player) : Player :=
  if input.right then
    let ai := if ai.x < CANVAS_WIDTH - 30 then { ai with x := ai.x + PLAYER_SPEED } else ai
    { ai with facingRight := true }
  else ai

/-- The movement/stance blocks of `Game.processAIPlayerInput`, in source
order. -/
def aiMoveSteps (input : Input) (ai : Player) : Player :=
  applyDuck input (applyJump input (aiApplyRight input (aiApplyLeft input ai)))

/-- `Game.processAIPlayerInput(ai)`; the stochastic output of
`generateAIInputForPlayer` is the given `input`.  That generator mutates
`ai.facingRight := false` when it decides to throw, which is replayed here
before the movement code runs. -/
def processAIPlayerInput (ai : Player) (input : Input) : Player × Option Ball :=
  if ai.lives ≤ 0 then (ai, none) else
  let ai := if input.throw then { ai with facingRight := false } else ai
  let ai := aiMoveSteps input ai
  if input.throw && ai.hasBall then throwBallFromAI ai else (ai, none)

/-- The `for (const ai of this.state.aiPlayers) processAIPlayerInput(ai)` loop:
each AI is processed with its own stochastic input (`inputs` indexed by list
position), thrown balls are pushed in order, and `respawnTimers[ai.id]` is set
to `RESPAWN_TIME` on a throw. -/
def processAIList (inputs : ℕ → Input) : ℕ → List (Player × ℤ) → List (Player × ℤ) × List Ball
  | _, [] => ([], [])
  | i, (ai, t) :: rest =>
    let pr := processAIPlayerInput ai (inputs i)
    let t' := if pr.2.isSome then RESPAWN_TIME else t
    let r := processAIList inputs (i + 1) rest
    ((pr.1, t') :: r.1, pr.2.toList ++ r.2)

/-! ### Game.updateBalls -/

/-- `Game.updateBalls()`: advance active balls, deactivate off-screen balls,
then drop inactive balls. -/
def updateBalls (balls : List Ball) : List Ball :=
  (balls.map fun b =>
    if !b.active then b else
    let b := { b with x := b.x + b.velocityX }
    if b.x < -10 ∨ b.x > CANVAS_WIDTH + 10 then { b with active := false } else b).filter
    fun b => b.active

/-! ### Game.checkBallPlayerCollision / Game.checkCollisions -/

/-- `Game.checkBallPlayerCollision(ball, player, ballSize)`: axis-aligned box
overlap with crouch-adjusted height. -/
def checkBallPlayerCollision (ball : Ball) (p : Player) (ballSize : ℚ) : Bool :=
  let height : ℚ := if p.isDucking then 35 else 60
  let playerLeft := p.x - 15
  let playerRight := p.x + 15
  let playerTop := p.y - height
  let playerBottom := p.y
  let ballLeft := ball.x - ballSize
  let ballRight := ball.x + ballSize
  let ballTop := ball.y - ballSize
  let ballBottom := ball.y + ballSize
  decide (ballRight > playerLeft) && decide (ballLeft < playerRight) &&
    decide (ballBottom > playerTop) && decide (ballTop < playerBottom)

/-- Effect of a hit on `player1`/`player2` (lives, invincibility, power-up
reset). -/
def hitHuman (p : Player) : Player :=
  { p with lives := p.lives - 1, isInvincible := true, invincibleTimer := INVINCIBLE_TIME,
           noHitTimer := 0, hasPowerup := false }

/-- Effect of a hit on a solo-mode AI combatant (no power-up fields are
touched). -/
def hitAI (ai : Player) : Player :=
  { ai with lives := ai.lives - 1, isInvincible := true, invincibleTimer := INVINCIBLE_TIME }

/-- The inner `for (const ai of this.state.aiPlayers)` loop of
`Game.checkCollisions`: skip dead, own-side and invincible AIs; hit the first
overlapping one and break (`none` = the ball hit nobody). -/
def aiCollideScan (ball : Ball) : List (Player × ℤ) → Option (List (Player × ℤ))
  | [] => none
  | (ai, t) :: rest =>
    if ai.lives ≤ 0 then (aiCollideScan ball rest).map ((ai, t) :: ·)
    else if ball.owner == ai.side then (aiCollideScan ball rest).map ((ai, t) :: ·)
    else if ai.isInvincible then (aiCollideScan ball rest).map ((ai, t) :: ·)
    else if checkBallPlayerCollision ball ai ball.size then some ((hitAI ai, t) :: rest)
    else (aiCollideScan ball rest).map ((ai, t) :: ·)

/-- Accumulator of the `for (const ball of this.state.balls)` loop of
`Game.checkCollisions`. -/
structure ColAcc where
  player1 : Player
  player2 : Option Player
  aiPlayers : List (Player × ℤ)
  done : List Ball
deriving DecidableEq

/-- One iteration of the ball loop of `Game.checkCollisions`: check `player1`
first (`continue` on hit), then either the AI list (solo) or `player2`
(versus). -/
def collideStep (isSinglePlayer : Bool) (acc : ColAcc) (ball : Ball) : ColAcc :=
  if !ball.active then { acc with done := acc.done ++ [ball] } else
  if !(ball.owner == acc.player1.side) && !acc.player1.isInvincible &&
      checkBallPlayerCollision ball acc.player1 ball.size then
    { acc with player1 := hitHuman acc.player1, done := acc.done ++ [{ ball with active := false }] }
  else if isSinglePlayer then
    match aiCollideScan ball acc.aiPlayers with
    | some ais => { acc with aiPlayers := ais, done := acc.done ++ [{ ball with active := false }] }
    | none => { acc with done := acc.done ++ [ball] }
  else
    match acc.player2 with
    | some p2 =>
      if !(ball.owner == p2.side) && !p2.isInvincible &&
          checkBallPlayerCollision ball p2 ball.size then
        { acc with player2 := some (hitHuman p2),
                   done := acc.done ++ [{ ball with active := false }] }
      else { acc with done := acc.done ++ [ball] }
    | none => { acc with done := acc.done ++ [ball] }

/-- `Game.checkCollisions()`. -/
def checkCollisions (isSinglePlayer : Bool) (s : GameSt) : GameSt :=
  let acc := s.balls.foldl (collideStep isSinglePlayer)
    ⟨s.player1, s.player2, s.aiPlayers, []⟩
  { s with player1 := acc.player1, player2 := acc.player2, aiPlayers := acc.aiPlayers,
           balls := acc.done }

/-! ### Game.updateRespawnTimers -/

/-- The respawn subsystem step for one combatant, exactly as
`Game.updateRespawnTimers` performs it: a combatant without a ball has its
timer decremented and regains the ball when the timer reaches `<= 0`. -/
def respawnStep (hasBall : Bool) (t : ℤ) : Bool × ℤ :=
  if !hasBall then
    let t := t - 1
    if t ≤ 0 then (true, t) else (false, t)
  else (hasBall, t)

/-- `Game.updateRespawnTimers()`: player1, then either the live AI combatants
(solo; dead AIs are skipped) or player2 (versus). -/
def updateRespawnTimers (isSinglePlayer : Bool) (s : GameSt) : GameSt :=
  let r1 := respawnStep s.player1.hasBall s.respawnP1
  let s := { s with player1 := { s.player1 with hasBall := r1.1 }, respawnP1 := r1.2 }
  if isSinglePlayer then
    { s with aiPlayers := s.aiPlayers.map fun e =>
        if e.1.lives ≤ 0 then e
        else
          let r := respawnStep e.1.hasBall e.2
          ({ e.1 with hasBall := r.1 }, r.2) }
  else
    match s.player2 with
    | some p2 =>
      let r2 := respawnStep p2.hasBall s.respawnP2
      { s with player2 := some { p2 with hasBall := r2.1 }, respawnP2 := r2.2 }
    | none => s

/-! ### Game.checkGameOver -/

/-- `Game.checkGameOver()`.  The returned `Bool` records whether
`broadcastState()` was invoked (the unconditional final snapshot); `stop()` is
modelled by clearing `timerOn`.  The `room.state` synchronisation is part of
the Room model below. -/
def checkGameOver (isSinglePlayer : Bool) (s : GameSt) : GameSt × Bool :=
  let p1Lives := s.player1.lives
  if isSinglePlayer then
    let allAIDefeated := s.aiPlayers.all fun e => e.1.lives ≤ 0
    if p1Lives ≤ 0 then
      ({ s with gameState := GState.gameover, winner := some Winner.ai, timerOn := false }, true)
    else if allAIDefeated then
      ({ s with gameState := GState.levelcomplete, winner := some Winner.player1,
                timerOn := false }, true)
    else (s, false)
  else
    let p2Lives := (s.player2.map Player.lives).getD 0
    if p1Lives ≤ 0 ∨ p2Lives ≤ 0 then
      ({ s with gameState := GState.gameover,
                winner := some (if p1Lives > 0 then Winner.player1 else Winner.player2),
                timerOn := false }, true)
    else (s, false)

/-! ### Game.tick -/

/-- The input-processing phase of `Game.tick()`: `processPlayerInput('player1')`,
then either the `processAIPlayerInput` loop (solo) or
`processPlayerInput('player2')` (versus).  Returns the state and the two
(possibly throw-cleared) input buffers. -/
def tickInputs (isSinglePlayer p1IsAI p2IsAI : Bool) (p1Gen p2Gen : Input) (aiGen : ℕ → Input)
    (buf1 buf2 : Option Input) (s : GameSt) : GameSt × Option Input × Option Input :=
  let r1 := processPlayerInput p1IsAI p1Gen buf1 s.player1 s.balls s.respawnP1
  let s := { s with player1 := r1.player, balls := r1.balls, respawnP1 := r1.respawn }
  let buf1 := r1.buffer
  if isSinglePlayer then
    let pr := processAIList aiGen 0 s.aiPlayers
    ({ s with aiPlayers := pr.1, balls := s.balls ++ pr.2 }, buf1, buf2)
  else
    match s.player2 with
    | some p2 =>
      let r2 := processPlayerInput p2IsAI p2Gen buf2 p2 s.balls s.respawnP2
      ({ s with player2 := some r2.player, balls := r2.balls, respawnP2 := r2.respawn },
        buf1, r2.buffer)
    | none => (s, buf1, buf2)

/-- The update phase of `Game.tick()`: `updatePlayer('player1')`, then either
the `updateAIPlayer` loop (solo) or `updatePlayer('player2')` (versus). -/
def tickUpdates (isSinglePlayer p1IsAI p2IsAI : Bool) (s : GameSt) : GameSt :=
  let s := { s with player1 := updatePlayer p1IsAI s.player1 }
  if isSinglePlayer then
    { s with aiPlayers := s.aiPlayers.map fun e => (updateAIPlayer e.1, e.2) }
  else
    match s.player2 with
    | some p2 => { s with player2 := some (updatePlayer p2IsAI p2) }
    | none => s

/-- The `updateBalls()` phase of `Game.tick()` lifted to the state. -/
def tickBalls (s : GameSt) : GameSt :=
  { s with balls := updateBalls s.balls }

/-- `Game.tick()` (first `Game` class): the per-tick simulation step, minus the
throttled broadcast (modelled separately by `throttleStep`).  `p1IsAI`/`p2IsAI`
are `room.players.*.isAI`; `p1Gen`/`p2Gen`/`aiGen` are the stochastic AI input
choices for this tick; `buf1`/`buf2` are the buffered `currentInput` records,
returned updated (the throw flag may be cleared). -/
def tick (isSinglePlayer : Bool) (p1IsAI p2IsAI : Bool) (p1Gen p2Gen : Input)
    (aiGen : ℕ → Input) (buf1 buf2 : Option Input) (s : GameSt) :
    GameSt × Option Input × Option Input :=
  if !(s.gameState == GState.playing) then (s, buf1, buf2) else
  let r := tickInputs isSinglePlayer p1IsAI p2IsAI p1Gen p2Gen aiGen buf1 buf2 s
  let s := tickUpdates isSinglePlayer p1IsAI p2IsAI r.1
  let s := tickBalls s
  let s := checkCollisions isSinglePlayer s
  let s := updateRespawnTimers isSinglePlayer s
  ((checkGameOver isSinglePlayer s).1, r.2)

/-! ### Broadcast throttling (Game.tick, both variants) -/

/-- The broadcast throttle of the first `Game.tick` variant:
`if (now - lastBroadcast >= broadcastInterval) { lastBroadcast = now;
broadcastState(); }` with `broadcastInterval = 33`.  Returns the updated
`lastBroadcast` and whether a snapshot was emitted. -/
def throttleStep (lastBroadcast now : ℤ) : ℤ × Bool :=
  if now - lastBroadcast ≥ 33 then (now, true) else (lastBroadcast, false)

/-- The broadcast rule of the second `Game.tick` variant:
`if (Date.now() % 2 === 0) this.broadcastState();`. -/
def tick2BroadcastEven (now : ℤ) : Bool :=
  now % 2 == 0

/-! ### Room model (Room.js, index.js) -/

inductive RoomState where
  | waiting
  | waitingForReady
  | countdown
  | playing
  | gameover
  | levelcomplete
deriving DecidableEq

inductive PlayerNum where
  | player1
  | player2
deriving DecidableEq

/-- A room player slot record (`{ ws, connected, isAI, wantsRematch,
currentInput }`); the transport handle `ws` is outside the model. -/
structure RoomPlayer where
  connected : Bool
  isAI : Bool
  wantsRematch : Bool
deriving DecidableEq

/-- A `Room` (the session): two nullable slots, the lifecycle state, the mode
flag and the solo level. -/
structure Room where
  state : RoomState
  isSinglePlayer : Bool
  level : ℕ
  player1 : Option RoomPlayer
  player2 : Option RoomPlayer
deriving DecidableEq

def Room.getPlayer (r : Room) : PlayerNum → Option RoomPlayer
  | PlayerNum.player1 => r.player1
  | PlayerNum.player2 => r.player2

def Room.setPlayer (r : Room) : PlayerNum → Option RoomPlayer → Room
  | PlayerNum.player1, p => { r with player1 := p }
  | PlayerNum.player2, p => { r with player2 := p }

/-- The slot mutation shared by `handleRematchRequest` and
`handleRematchAccept`: `if (player) player.wantsRematch = true`. -/
def setWantsRematch (r : Room) (pn : PlayerNum) : Room :=
  match r.getPlayer pn with
  | some p => r.setPlayer pn (some { p with wantsRematch := true })
  | none => r

/-- `startRematch(room)`: clear both rematch flags, reset the solo level, and
start the countdown (`startCountdown` synchronously sets
`room.state = 'countdown'`; the old Match Engine is stopped and dropped from
the `games` map, which lies outside the Room record). -/
def startRematch (r : Room) : Room :=
  let r := { r with player1 := r.player1.map fun (p : RoomPlayer) => { p with wantsRematch := false },
                    player2 := r.player2.map fun (p : RoomPlayer) => { p with wantsRematch := false } }
  let r := if r.isSinglePlayer then { r with level := 1 } else r
  { r with state := RoomState.countdown }

/-- `checkRematchReady(room)`: solo needs only player1's flag; versus needs
both (`p1?.wantsRematch && p2?.wantsRematch`, a missing slot being falsy). -/
def checkRematchReady (r : Room) : Room :=
  if r.isSinglePlayer then
    if (r.player1.map RoomPlayer.wantsRematch).getD false then startRematch r else r
  else if (r.player1.map RoomPlayer.wantsRematch).getD false &&
      (r.player2.map RoomPlayer.wantsRematch).getD false then startRematch r
  else r

/-- `handleRematchRequest(ws)` state effect: only in `gameover`; flag the
requesting slot, then check readiness. -/
def handleRematchRequest (r : Room) (pn : PlayerNum) : Room :=
  if !(r.state == RoomState.gameover) then r
  else checkRematchReady (setWantsRematch r pn)

/-- `handleRematchAccept(ws)` state effect: identical to
`handleRematchRequest` up to the notification sent to the other slot. -/
def handleRematchAccept (r : Room) (pn : PlayerNum) : Room :=
  if !(r.state == RoomState.gameover) then r
  else checkRematchReady (setWantsRematch r pn)

/-- `handleNextLevel(ws)` state effect: solo rooms only; the guard
`room.state !== 'gameover' && room.state !== 'playing'` lets the level advance
and the countdown restart (`room.state = 'countdown'`, then `startCountdown`). -/
def handleNextLevel (r : Room) : Room :=
  if !r.isSinglePlayer then r
  else if !(r.state == RoomState.gameover) && !(r.state == RoomState.playing) then
    { r with level := r.level + 1, state := RoomState.countdown }
  else r

/-- The countdown-expiry branch of `startCountdown(room)` (`count < 0`): set
`room.state = 'playing'`, then convert every still-disconnected non-AI slot to
an AI slot before `new Game(room)` is constructed and started. -/
def countdownExpiryFixSlot : Option RoomPlayer → Option RoomPlayer
  | none => none
  | some p => if !p.connected && !p.isAI then some { p with isAI := true } else some p

def countdownExpiry (r : Room) : Room :=
  let r := { r with state := RoomState.playing }
  { r with player1 := countdownExpiryFixSlot r.player1,
           player2 := countdownExpiryFixSlot r.player2 }

/-- The Match Engine created at countdown expiry: `new Game(room)` on the
room as left by `countdownExpiry` (AI conversion happens strictly before). -/
def gameAtCountdownExpiry (r : Room) : GameSt :=
  initState (countdownExpiry r).isSinglePlayer (countdownExpiry r).level

/-! ### generateRoomId / handleJoin (room lookup) -/

/-- The 32-character room-id alphabet `'ABCDEFGHJKLMNPQRSTUVWXYZ23456789'`
(uppercase letters and digits, excluding I, O, 0 and 1). -/
def roomIdChars : List Char :=
  ['A', 'B', 'C', 'D', 'E', 'F', 'G', 'H', 'J', 'K', 'L', 'M', 'N', 'P', 'Q', 'R',
   'S', 'T', 'U', 'V', 'W', 'X', 'Y', 'Z', '2', '3', '4', '5', '6', '7', '8', '9']

/-- `generateRoomId()`: six characters picked from `roomIdChars`; the
`Math.floor(Math.random() * chars.length)` choices are the `pick` argument.
Strings are modelled as `List Char`. -/
def generateRoomId (pick : Fin 6 → Fin 32) : List Char :=
  (List.finRange 6).map fun i => roomIdChars.get ⟨(pick i).val, (pick i).isLt⟩

/-- JavaScript `toUpperCase()` on an id string (ASCII). -/
def strToUpper (s : List Char) : List Char :=
  s.map Char.toUpper

/-- The lookup prefix of `handleJoin(ws, roomId)`:
`roomManager.getRoom(roomId?.toUpperCase())`, answering `Room not found` when
the id is missing or unknown.  `rooms` is the `RoomManager`'s map. -/
def handleJoinLookup (rooms : List Char → Option Room) (roomId : Option (List Char)) :
    Except (List Char) Room :=
  match roomId.map strToUpper with
  | none => Except.error "Room not found".toList
  | some key =>
    match rooms key with
    | none => Except.error "Room not found".toList
    | some r => Except.ok r

/-- `s` spells the id `t` with arbitrary per-character casing: each character
is either the id's character or its lowercase form. -/
def IsSpelling (s t : List Char) : Prop :=
  List.Forall₂ (fun c c' => c = c' ∨ c = Char.toLower c') s t

/-! ### Basic lemmas about the per-combatant steps -/

theorem applyLeft_x (input : Input) (p : Player) :
    (applyLeft input p).x =
      if input.left = true ∧ p.x > (if p.side = Side.left then (30 : ℚ) else 430) then
        p.x - 5 else p.x := by
  unfold applyLeft
  dsimp only
  rcases hs : p.side with _ | _ <;> cases hl : input.left <;>
    norm_num [hs, CANVAS_WIDTH, PLAYER_SPEED] <;> split_ifs <;> simp_all

theorem applyRight_x (input : Input) (p : Player) :
    (applyRight input p).x =
      if input.right = true ∧ p.x < (if p.side = Side.left then (370 : ℚ) else 770) then
        p.x + 5 else p.x := by
  unfold applyRight
  dsimp only
  rcases hs : p.side with _ | _ <;> cases hr : input.right <;>
    norm_num [hs, CANVAS_WIDTH, PLAYER_SPEED] <;> split_ifs <;> simp_all

theorem aiApplyLeft_x (input : Input) (ai : Player) :
    (aiApplyLeft input ai).x =
      if input.left = true ∧ ai.x > 430 then ai.x - 5 else ai.x := by
  unfold aiApplyLeft
  dsimp only
  cases hl : input.left <;>
    norm_num [CANVAS_WIDTH, PLAYER_SPEED] <;> split_ifs <;> simp_all

theorem aiApplyRight_x (input : Input) (ai : Player) :
    (aiApplyRight input ai).x =
      if input.right = true ∧ ai.x < 770 then ai.x + 5 else ai.x := by
  unfold aiApplyRight
  dsimp only
  cases hr : input.right <;>
    norm_num [CANVAS_WIDTH, PLAYER_SPEED] <;> split_ifs <;> simp_all

theorem applyJump_x (input : Input) (p : Player) : (applyJump input p).x = p.x := by
  unfold applyJump; split_ifs <;> rfl

theorem applyDuck_x (input : Input) (p : Player) : (applyDuck input p).x = p.x := rfl

theorem throwBall_player_x (p : Player) (balls : List Ball) (rt : ℤ) :
    (throwBall p balls rt).1.x = p.x := by
  unfold throwBall; dsimp only; split_ifs <;> rfl

theorem applyLeft_side (input : Input) (p : Player) : (applyLeft input p).side = p.side := by
  unfold applyLeft; dsimp only; split_ifs <;> rfl

theorem applyRight_side (input : Input) (p : Player) : (applyRight input p).side = p.side := by
  unfold applyRight; dsimp only; split_ifs <;> rfl

theorem applyJump_side (input : Input) (p : Player) : (applyJump input p).side = p.side := by
  unfold applyJump; split_ifs <;> rfl

theorem applyDuck_side (input : Input) (p : Player) : (applyDuck input p).side = p.side := rfl

theorem throwBallFromAI_player_x (ai : Player) : (throwBallFromAI ai).1.x = ai.x := by
  unfold throwBallFromAI; dsimp only; split_ifs <;> rfl

theorem moveSteps_x (input : Input) (p : Player) :
    (moveSteps input p).x = (applyRight input (applyLeft input p)).x := by
  unfold moveSteps; rw [applyDuck_x, applyJump_x]

theorem aiMoveSteps_x (input : Input) (ai : Player) :
    (aiMoveSteps input ai).x = (aiApplyRight input (aiApplyLeft input ai)).x := by
  unfold aiMoveSteps; rw [applyDuck_x, applyJump_x]

/-- The horizontal effect of `Game.processPlayerInput` on the game player:
only the two movement blocks touch `x`. -/
theorem processPlayerInput_x (isAI : Bool) (gen : Input) (buf : Option Input) (p : Player)
    (balls : List Ball) (rt : ℤ) :
    (processPlayerInput isAI gen buf p balls rt).player.x =
      (applyRight (if isAI then gen else buf.getD emptyInput)
        (applyLeft (if isAI then gen else buf.getD emptyInput) p)).x := by
  unfold processPlayerInput
  dsimp only
  split_ifs <;>
    simp [throwBall_player_x, moveSteps_x]

/-- The horizontal effect of `Game.processAIPlayerInput` on a live AI
combatant. -/
theorem processAIPlayerInput_x (ai : Player) (input : Input) :
    (processAIPlayerInput ai input).1.x =
      if ai.lives ≤ 0 then ai.x
      else (aiApplyRight input (aiApplyLeft input
        (if input.throw then { ai with facingRight := false } else ai))).x := by
  unfold processAIPlayerInput
  dsimp only
  split_ifs <;>
    simp_all [throwBallFromAI_player_x, aiMoveSteps_x]

theorem aiMoveSteps_lives (input : Input) (ai : Player) :
    (aiMoveSteps input ai).lives = ai.lives := by
  unfold aiMoveSteps applyDuck applyJump aiApplyRight aiApplyLeft
  dsimp only; split_ifs <;> rfl

theorem moveSteps_lives (input : Input) (p : Player) : (moveSteps input p).lives = p.lives := by
  unfold moveSteps applyDuck applyJump applyRight applyLeft
  dsimp only; split_ifs <;> rfl

theorem moveSteps_hasBall (input : Input) (p : Player) :
    (moveSteps input p).hasBall = p.hasBall := by
  unfold moveSteps applyDuck applyJump applyRight applyLeft
  dsimp only; split_ifs <;> rfl

theorem moveSteps_side (input : Input) (p : Player) : (moveSteps input p).side = p.side := by
  unfold moveSteps applyDuck applyJump applyRight applyLeft
  dsimp only; split_ifs <;> rfl

theorem throwBall_player_lives (p : Player) (balls : List Ball) (rt : ℤ) :
    (throwBall p balls rt).1.lives = p.lives := by
  unfold throwBall; dsimp only; split_ifs <;> rfl

theorem throwBall_of_hasBall (p : Player) (balls : List Ball) (rt : ℤ) (h : p.hasBall = true) :
    (throwBall p balls rt).1.hasBall = false ∧ (throwBall p balls rt).2.2 = RESPAWN_TIME ∧
      ∃ b, (throwBall p balls rt).2.1 = balls ++ [b] := by
  have hg : (!p.hasBall) = false := by rw [h]; rfl
  unfold throwBall
  rw [hg]
  simp only [Bool.false_eq_true, if_false]
  dsimp only
  split_ifs <;> simp

/-- `processPlayerInput` on a player without a ball: no throw can fire, so
only the movement blocks act. -/
theorem processPlayerInput_no_ball (isAI : Bool) (gen : Input) (buf : Option Input) (p : Player)
    (balls : List Ball) (rt : ℤ) (h : p.hasBall = false) :
    processPlayerInput isAI gen buf p balls rt =
      ⟨moveSteps (if isAI then gen else buf.getD emptyInput) p, balls, rt, buf⟩ := by
  unfold processPlayerInput
  dsimp only
  rw [moveSteps_hasBall, h]
  simp

theorem processPlayerInput_player_lives (isAI : Bool) (gen : Input) (buf : Option Input)
    (p : Player) (balls : List Ball) (rt : ℤ) :
    (processPlayerInput isAI gen buf p balls rt).player.lives = p.lives := by
  unfold processPlayerInput
  dsimp only
  split_ifs <;>
    simp [throwBall_player_lives, moveSteps_lives]

theorem processPlayerInput_player_hasBall (isAI : Bool) (gen : Input) (buf : Option Input)
    (p : Player) (balls : List Ball) (rt : ℤ) (h : p.hasBall = false) :
    (processPlayerInput isAI gen buf p balls rt).player.hasBall = false := by
  rw [processPlayerInput_no_ball _ _ _ _ _ _ h]
  simpa [moveSteps_hasBall] using h

theorem updatePlayer_lives (isAI : Bool) (p : Player) : (updatePlayer isAI p).lives = p.lives := by
  unfold updatePlayer tickPowerup tickThrowAnimation tickInvincibility applyGround applyGravity
  dsimp only; split_ifs <;> rfl

theorem updatePlayer_hasBall (isAI : Bool) (p : Player) :
    (updatePlayer isAI p).hasBall = p.hasBall := by
  unfold updatePlayer tickPowerup tickThrowAnimation tickInvincibility applyGround applyGravity
  dsimp only; split_ifs <;> rfl

theorem updateAIPlayer_lives (ai : Player) : (updateAIPlayer ai).lives = ai.lives := by
  unfold updateAIPlayer tickThrowAnimation tickInvincibility applyGround applyGravity
  dsimp only; split_ifs <;> rfl

theorem updateAIPlayer_dead (ai : Player) (h : ai.lives ≤ 0) : updateAIPlayer ai = ai := by
  unfold updateAIPlayer
  rw [if_pos h]

theorem processAIPlayerInput_dead (ai : Player) (input : Input) (h : ai.lives ≤ 0) :
    processAIPlayerInput ai input = (ai, none) := by
  unfold processAIPlayerInput
  rw [if_pos h]

theorem throwBallFromAI_player_lives (ai : Player) :
    (throwBallFromAI ai).1.lives = ai.lives := by
  unfold throwBallFromAI; dsimp only; split_ifs <;> rfl

theorem processAIPlayerInput_player_lives (ai : Player) (input : Input) :
    (processAIPlayerInput ai input).1.lives = ai.lives := by
  unfold processAIPlayerInput
  dsimp only
  split_ifs <;>
    simp_all [throwBallFromAI_player_lives, aiMoveSteps_lives]

theorem hitHuman_hasBall (p : Player) : (hitHuman p).hasBall = p.hasBall := rfl

theorem hitHuman_lives (p : Player) : (hitHuman p).lives = p.lives - 1 := rfl

theorem hitHuman_isInvincible (p : Player) : (hitHuman p).isInvincible = true := rfl

theorem hitAI_lives (ai : Player) : (hitAI ai).lives = ai.lives - 1 := rfl

theorem hitAI_isInvincible (ai : Player) : (hitAI ai).isInvincible = true := rfl

/-! ### Horizontal band preservation (claim C1) -/

theorem band_open_left (isAI : Bool) (gen : Input) (buf : Option Input) (p : Player)
    (balls : List Ball) (rt : ℤ) (hs : p.side = Side.left) (h1 : 25 < p.x) (h2 : p.x < 375) :
    25 < (processPlayerInput isAI gen buf p balls rt).player.x ∧
      (processPlayerInput isAI gen buf p balls rt).player.x < 375 := by
  rw [processPlayerInput_x, applyRight_x, applyLeft_side, applyLeft_x, hs]
  split_ifs <;> constructor <;> simp_all <;> linarith

theorem band_open_right (isAI : Bool) (gen : Input) (buf : Option Input) (p : Player)
    (balls : List Ball) (rt : ℤ) (hs : p.side = Side.right) (h1 : 425 < p.x) (h2 : p.x < 775) :
    425 < (processPlayerInput isAI gen buf p balls rt).player.x ∧
      (processPlayerInput isAI gen buf p balls rt).player.x < 775 := by
  rw [processPlayerInput_x, applyRight_x, applyLeft_side, applyLeft_x, hs]
  split_ifs <;> constructor <;> simp_all <;> linarith

theorem band_open_ai (ai : Player) (input : Input) (h1 : 425 < ai.x) (h2 : ai.x < 775) :
    425 < (processAIPlayerInput ai input).1.x ∧ (processAIPlayerInput ai input).1.x < 775 := by
  have hx : ∀ q : Player, q.x = ai.x →
      425 < (aiApplyRight input (aiApplyLeft input q)).x ∧
        (aiApplyRight input (aiApplyLeft input q)).x < 775 := by
    intro q hq
    rw [aiApplyRight_x, aiApplyLeft_x, hq]
    split_ifs <;> constructor <;> linarith
  rw [processAIPlayerInput_x]
  split_ifs with hd ht
  · exact ⟨h1, h2⟩
  · exact hx _ rfl
  · exact hx _ rfl

theorem int_mul5_step_up {k m : ℤ} (h : (5 : ℚ) * k > 5 * m) : (5 : ℚ) * k ≥ 5 * (m + 1) := by
  have h1 : (m : ℚ) < k := by linarith
  have h2 : m < k := by exact_mod_cast h1
  have h3 : ((m + 1 : ℤ) : ℚ) ≤ k := by exact_mod_cast h2
  push_cast at h3 ⊢
  linarith

theorem int_mul5_step_down {k m : ℤ} (h : (5 : ℚ) * k < 5 * m) : (5 : ℚ) * k ≤ 5 * (m - 1) := by
  have h1 : (k : ℚ) < m := by linarith
  have h2 : k < m := by exact_mod_cast h1
  have h3 : ((k : ℤ) : ℚ) ≤ ((m - 1 : ℤ) : ℚ) := by exact_mod_cast Int.le_sub_one_of_lt h2
  push_cast at h3 ⊢
  linarith

theorem band_exact_left (isAI : Bool) (gen : Input) (buf : Option Input) (p : Player)
    (balls : List Ball) (rt : ℤ) (hs : p.side = Side.left) (hm : ∃ k : ℤ, p.x = 5 * k)
    (h1 : 30 ≤ p.x) (h2 : p.x ≤ 370) :
    (∃ k : ℤ, (processPlayerInput isAI gen buf p balls rt).player.x = 5 * k) ∧
      30 ≤ (processPlayerInput isAI gen buf p balls rt).player.x ∧
      (processPlayerInput isAI gen buf p balls rt).player.x ≤ 370 := by
  obtain ⟨k, hk⟩ := hm
  have hb1 : (if p.side = Side.left then (30 : ℚ) else 430) = 30 := by rw [hs]; simp
  have hb2 : (if p.side = Side.left then (370 : ℚ) else 770) = 370 := by rw [hs]; simp
  rw [processPlayerInput_x, applyRight_x, applyLeft_side, applyLeft_x, hb1, hb2]
  generalize (if isAI = true then gen else buf.getD emptyInput) = input
  split_ifs with hL hR hR
  · exact ⟨⟨k, by push_cast; linarith⟩, by linarith, by linarith⟩
  · have := int_mul5_step_up (m := 6) (k := k) (by push_cast; norm_num; linarith [hL.2])
    exact ⟨⟨k - 1, by push_cast; linarith⟩, by push_cast at this; linarith, by linarith⟩
  · have := int_mul5_step_down (m := 74) (k := k) (by push_cast; norm_num; linarith [hR.2])
    exact ⟨⟨k + 1, by push_cast; linarith⟩, by linarith, by push_cast at this; linarith⟩
  · exact ⟨⟨k, hk⟩, h1, h2⟩

theorem band_exact_right (isAI : Bool) (gen : Input) (buf : Option Input) (p : Player)
    (balls : List Ball) (rt : ℤ) (hs : p.side = Side.right) (hm : ∃ k : ℤ, p.x = 5 * k)
    (h1 : 430 ≤ p.x) (h2 : p.x ≤ 770) :
    (∃ k : ℤ, (processPlayerInput isAI gen buf p balls rt).player.x = 5 * k) ∧
      430 ≤ (processPlayerInput isAI gen buf p balls rt).player.x ∧
      (processPlayerInput isAI gen buf p balls rt).player.x ≤ 770 := by
  obtain ⟨k, hk⟩ := hm
  have hb1 : (if p.side = Side.left then (30 : ℚ) else 430) = 430 := by rw [hs]; simp
  have hb2 : (if p.side = Side.left then (370 : ℚ) else 770) = 770 := by rw [hs]; simp
  rw [processPlayerInput_x, applyRight_x, applyLeft_side, applyLeft_x, hb1, hb2]
  generalize (if isAI = true then gen else buf.getD emptyInput) = input
  split_ifs with hL hR hR
  · exact ⟨⟨k, by push_cast; linarith⟩, by linarith, by linarith⟩
  · have := int_mul5_step_up (m := 86) (k := k) (by push_cast; norm_num; linarith [hL.2])
    exact ⟨⟨k - 1, by push_cast; linarith⟩, by push_cast at this; linarith, by linarith⟩
  · have := int_mul5_step_down (m := 154) (k := k) (by push_cast; norm_num; linarith [hR.2])
    exact ⟨⟨k + 1, by push_cast; linarith⟩, by linarith, by push_cast at this; linarith⟩
  · exact ⟨⟨k, hk⟩, h1, h2⟩

theorem band_exact_ai (ai : Player) (input : Input) (hm : ∃ k : ℤ, ai.x = 5 * k)
    (h1 : 430 ≤ ai.x) (h2 : ai.x ≤ 770) :
    (∃ k : ℤ, (processAIPlayerInput ai input).1.x = 5 * k) ∧
      430 ≤ (processAIPlayerInput ai input).1.x ∧ (processAIPlayerInput ai input).1.x ≤ 770 := by
  obtain ⟨k, hk⟩ := hm
  have hx : ∀ q : Player, q.x = ai.x →
      (∃ j : ℤ, (aiApplyRight input (aiApplyLeft input q)).x = 5 * j) ∧
        430 ≤ (aiApplyRight input (aiApplyLeft input q)).x ∧
        (aiApplyRight input (aiApplyLeft input q)).x ≤ 770 := by
    intro q hq
    rw [aiApplyRight_x, aiApplyLeft_x, hq]
    split_ifs with hL hR hR
    · exact ⟨⟨k, by push_cast; linarith⟩, by linarith, by linarith⟩
    · have := int_mul5_step_up (m := 86) (k := k) (by push_cast; norm_num; linarith [hL.2])
      exact ⟨⟨k - 1, by push_cast; linarith⟩, by push_cast at this; linarith, by linarith⟩
    · have := int_mul5_step_down (m := 154) (k := k) (by push_cast; norm_num; linarith [hR.2])
      exact ⟨⟨k + 1, by push_cast; linarith⟩, by linarith, by push_cast at this; linarith⟩
    · exact ⟨⟨k, hk⟩, h1, h2⟩
  rw [processAIPlayerInput_x]
  split_ifs with hd ht
  · exact ⟨⟨k, hk⟩, h1, h2⟩
  · exact hx _ rfl
  · exact hx _ rfl

/-- Claim C1, corrected.  A movement intent keeps a left-side combatant's `x`
within the open band `(25, 375)` and a right-side combatant's (player or solo
AI) within `(425, 775)`, so no combatant ever crosses the midline `x = 400`;
the exact closed bands `[30, 370]` / `[430, 770]` of the original claim are
preserved exactly for combatants whose `x` is a multiple of the 5-pixel step
(true of the Versus players and the solo human, spawned at 150 and 650), but
not for solo AI combatants spawned off the 5-pixel grid (see the
counterexample). -/
theorem c1_theorem :
    (∀ (isAI : Bool) (gen : Input) (buf : Option Input) (p : Player) (balls : List Ball) (rt : ℤ),
      p.side = Side.left → 25 < p.x → p.x < 375 →
        25 < (processPlayerInput isAI gen buf p balls rt).player.x ∧
          (processPlayerInput isAI gen buf p balls rt).player.x < 375) ∧
    (∀ (isAI : Bool) (gen : Input) (buf : Option Input) (p : Player) (balls : List Ball) (rt : ℤ),
      p.side = Side.right → 425 < p.x → p.x < 775 →
        425 < (processPlayerInput isAI gen buf p balls rt).player.x ∧
          (processPlayerInput isAI gen buf p balls rt).player.x < 775) ∧
    (∀ (ai : Player) (input : Input), 425 < ai.x → ai.x < 775 →
        425 < (processAIPlayerInput ai input).1.x ∧ (processAIPlayerInput ai input).1.x < 775) ∧
    (∀ (isAI : Bool) (gen : Input) (buf : Option Input) (p : Player) (balls : List Ball) (rt : ℤ),
      p.side = Side.left → (∃ k : ℤ, p.x = 5 * k) → 30 ≤ p.x → p.x ≤ 370 →
        (∃ k : ℤ, (processPlayerInput isAI gen buf p balls rt).player.x = 5 * k) ∧
          30 ≤ (processPlayerInput isAI gen buf p balls rt).player.x ∧
          (processPlayerInput isAI gen buf p balls rt).player.x ≤ 370) ∧
    (∀ (isAI : Bool) (gen : Input) (buf : Option Input) (p : Player) (balls : List Ball) (rt : ℤ),
      p.side = Side.right → (∃ k : ℤ, p.x = 5 * k) → 430 ≤ p.x → p.x ≤ 770 →
        (∃ k : ℤ, (processPlayerInput isAI gen buf p balls rt).player.x = 5 * k) ∧
          430 ≤ (processPlayerInput isAI gen buf p balls rt).player.x ∧
          (processPlayerInput isAI gen buf p balls rt).player.x ≤ 770) ∧
    (∀ (ai : Player) (input : Input), (∃ k : ℤ, ai.x = 5 * k) → 430 ≤ ai.x → ai.x ≤ 770 →
        (∃ k : ℤ, (processAIPlayerInput ai input).1.x = 5 * k) ∧
          430 ≤ (processAIPlayerInput ai input).1.x ∧
          (processAIPlayerInput ai input).1.x ≤ 770) :=
  ⟨band_open_left, band_open_right, band_open_ai, band_exact_left, band_exact_right,
    band_exact_ai⟩

/-- Claim C1 counterexample: the first AI combatant of a level-4 solo match
spawns at `x = 487.5`, off the 5-pixel grid; eleven left intents bring it to
`x = 432.5`, and a twelfth left intent moves it to `x = 427.5`, strictly below
the claimed lower band bound 430 (while still right of the midline). -/
theorem c1_counterexample :
    ((createAIPlayers 4).head?.map fun e =>
        ((fun ai => (processAIPlayerInput ai ⟨true, false, false, false, false⟩).1)^[12] e.1).x) =
      some (855 / 2) ∧ ¬(430 ≤ (855 / 2 : ℚ)) := by
  constructor
  · norm_num [createAIPlayers, createPlayer, processAIPlayerInput, aiMoveSteps, applyDuck,
      applyJump, aiApplyRight, aiApplyLeft, throwBallFromAI, Function.iterate_succ_apply',
      CANVAS_WIDTH, GROUND_Y, PLAYER_SPEED, List.range_succ]
  · norm_num

/-- Witness for `c1_theorem` at concrete inputs: the solo human spawn
(`x = 150`, left side) with an all-directions input stays in `[30, 370]`, and
the Versus right player spawn (`x = 650`) stays in `(425, 775)`. -/
theorem c1_witness :
    ((createPlayer 150 Side.left).side = Side.left ∧
      (∃ k : ℤ, (createPlayer 150 Side.left).x = 5 * k) ∧
      30 ≤ (createPlayer 150 Side.left).x ∧ (createPlayer 150 Side.left).x ≤ 370 ∧
      (∃ k : ℤ,
        (processPlayerInput false emptyInput (some ⟨true, true, true, true, true⟩)
          (createPlayer 150 Side.left) [] 0).player.x = 5 * k) ∧
      30 ≤ (processPlayerInput false emptyInput (some ⟨true, true, true, true, true⟩)
          (createPlayer 150 Side.left) [] 0).player.x ∧
      (processPlayerInput false emptyInput (some ⟨true, true, true, true, true⟩)
          (createPlayer 150 Side.left) [] 0).player.x ≤ 370) ∧
    ((createPlayer 650 Side.right).side = Side.right ∧
      425 < (createPlayer 650 Side.right).x ∧ (createPlayer 650 Side.right).x < 775 ∧
      425 < (processPlayerInput false emptyInput none
          (createPlayer 650 Side.right) [] 0).player.x ∧
      (processPlayerInput false emptyInput none (createPlayer 650 Side.right) [] 0).player.x
        < 775) := by
  have h1 := c1_theorem.2.2.2.1 false emptyInput (some ⟨true, true, true, true, true⟩)
    (createPlayer 150 Side.left) [] 0 rfl ⟨30, by norm_num [createPlayer]⟩
    (by norm_num [createPlayer]) (by norm_num [createPlayer])
  have h2 := c1_theorem.2.1 false emptyInput none (createPlayer 650 Side.right) [] 0 rfl
    (by norm_num [createPlayer]) (by norm_num [createPlayer])
  exact ⟨⟨rfl, ⟨30, by norm_num [createPlayer]⟩, by norm_num [createPlayer],
      by norm_num [createPlayer], h1.1, h1.2.1, h1.2.2⟩,
    ⟨rfl, by norm_num [createPlayer], by norm_num [createPlayer], h2.1, h2.2⟩⟩

/-! ### Rematch gating (claim C4) -/

theorem rematch_single_flag (r : Room) (a b : RoomPlayer) (hmode : r.isSinglePlayer = false)
    (hst : r.state = RoomState.gameover) (hp1 : r.player1 = some a) (hp2 : r.player2 = some b)
    (hb : b.wantsRematch = false) :
    handleRematchRequest r PlayerNum.player1 =
      { r with player1 := some { a with wantsRematch := true } } := by
  unfold handleRematchRequest checkRematchReady setWantsRematch Room.getPlayer Room.setPlayer
  rcases r with ⟨st, sp, lv, p1, p2⟩
  cases hp1
  cases hp2
  cases hst
  subst hmode
  simp [hb]

theorem rematch_single_flag_p2 (r : Room) (a b : RoomPlayer) (hmode : r.isSinglePlayer = false)
    (hst : r.state = RoomState.gameover) (hp1 : r.player1 = some a) (hp2 : r.player2 = some b)
    (ha : a.wantsRematch = false) :
    handleRematchRequest r PlayerNum.player2 =
      { r with player2 := some { b with wantsRematch := true } } := by
  unfold handleRematchRequest checkRematchReady setWantsRematch Room.getPlayer Room.setPlayer
  rcases r with ⟨st, sp, lv, p1, p2⟩
  cases hp1
  cases hp2
  cases hst
  subst hmode
  simp [ha]

theorem rematch_both_flags (r : Room) (a b : RoomPlayer) (hmode : r.isSinglePlayer = false)
    (hst : r.state = RoomState.gameover) (hp1 : r.player1 = some a) (hp2 : r.player2 = some b)
    (hb : b.wantsRematch = true) :
    handleRematchRequest r PlayerNum.player1 =
      { r with state := RoomState.countdown,
               player1 := some { a with wantsRematch := false },
               player2 := some { b with wantsRematch := false } } := by
  unfold handleRematchRequest checkRematchReady setWantsRematch startRematch
    Room.getPlayer Room.setPlayer
  rcases r with ⟨st, sp, lv, p1, p2⟩
  cases hp1
  cases hp2
  cases hst
  subst hmode
  simp [hb]

theorem rematch_both_flags_p2 (r : Room) (a b : RoomPlayer) (hmode : r.isSinglePlayer = false)
    (hst : r.state = RoomState.gameover) (hp1 : r.player1 = some a) (hp2 : r.player2 = some b)
    (ha : a.wantsRematch = true) :
    handleRematchRequest r PlayerNum.player2 =
      { r with state := RoomState.countdown,
               player1 := some { a with wantsRematch := false },
               player2 := some { b with wantsRematch := false } } := by
  unfold handleRematchRequest checkRematchReady setWantsRematch startRematch
    Room.getPlayer Room.setPlayer
  rcases r with ⟨st, sp, lv, p1, p2⟩
  cases hp1
  cases hp2
  cases hst
  subst hmode
  simp [ha]

/-- Claim C4.  In a Versus room in `gameover`: `accept_rematch` has the same
state effect as `request_rematch`; a single slot flagging `wantsRematch`
leaves the phase at `gameover` and only sets its own flag; as soon as both
slots want the rematch the room transitions to `countdown` with both
`wantsRematch` flags cleared. -/
theorem c4_theorem :
    (∀ (r : Room) (pn : PlayerNum), handleRematchAccept r pn = handleRematchRequest r pn) ∧
    (∀ (r : Room) (a b : RoomPlayer), r.isSinglePlayer = false → r.state = RoomState.gameover →
      r.player1 = some a → r.player2 = some b → b.wantsRematch = false →
      handleRematchRequest r PlayerNum.player1 =
        { r with player1 := some { a with wantsRematch := true } } ∧
        (handleRematchRequest r PlayerNum.player1).state = RoomState.gameover) ∧
    (∀ (r : Room) (a b : RoomPlayer), r.isSinglePlayer = false → r.state = RoomState.gameover →
      r.player1 = some a → r.player2 = some b → a.wantsRematch = false →
      handleRematchRequest r PlayerNum.player2 =
        { r with player2 := some { b with wantsRematch := true } } ∧
        (handleRematchRequest r PlayerNum.player2).state = RoomState.gameover) ∧
    (∀ (r : Room) (a b : RoomPlayer), r.isSinglePlayer = false → r.state = RoomState.gameover →
      r.player1 = some a → r.player2 = some b → b.wantsRematch = true →
      handleRematchRequest r PlayerNum.player1 =
        { r with state := RoomState.countdown,
                 player1 := some { a with wantsRematch := false },
                 player2 := some { b with wantsRematch := false } }) ∧
    (∀ (r : Room) (a b : RoomPlayer), r.isSinglePlayer = false → r.state = RoomState.gameover →
      r.player1 = some a → r.player2 = some b → a.wantsRematch = true →
      handleRematchRequest r PlayerNum.player2 =
        { r with state := RoomState.countdown,
                 player1 := some { a with wantsRematch := false },
                 player2 := some { b with wantsRematch := false } }) := by
  refine ⟨fun r pn => rfl, ?_, ?_, ?_, ?_⟩
  · intro r a b hmode hst hp1 hp2 hb
    refine ⟨rematch_single_flag r a b hmode hst hp1 hp2 hb, ?_⟩
    rw [rematch_single_flag r a b hmode hst hp1 hp2 hb, ← hst]
  · intro r a b hmode hst hp1 hp2 ha
    refine ⟨rematch_single_flag_p2 r a b hmode hst hp1 hp2 ha, ?_⟩
    rw [rematch_single_flag_p2 r a b hmode hst hp1 hp2 ha, ← hst]
  · exact rematch_both_flags
  · exact rematch_both_flags_p2

/-- Witness for `c4_theorem`: a concrete Versus `gameover` room.  A lone
`request_rematch` from player1 leaves the phase at `gameover`; after player2
also requests, the room is counting down with both flags cleared. -/
theorem c4_witness :
    (handleRematchRequest
        ⟨RoomState.gameover, false, 1, some ⟨true, false, false⟩, some ⟨true, false, false⟩⟩
        PlayerNum.player1).state = RoomState.gameover ∧
    handleRematchRequest
        ⟨RoomState.gameover, false, 1, some ⟨true, false, true⟩, some ⟨true, false, false⟩⟩
        PlayerNum.player2 =
      ⟨RoomState.countdown, false, 1, some ⟨true, false, false⟩, some ⟨true, false, false⟩⟩ := by
  constructor
  · exact (c4_theorem.2.1 _ ⟨true, false, false⟩ ⟨true, false, false⟩ rfl rfl rfl rfl rfl).2
  · exact c4_theorem.2.2.2.2 _ ⟨true, false, true⟩ ⟨true, false, false⟩ rfl rfl rfl rfl rfl

/-! ### Countdown expiry AI conversion (claim C5) -/

/-- Claim C5.  At countdown expiry, every occupied slot that is disconnected
and not yet a bot is converted to a bot slot before the Match Engine is
created (`gameAtCountdownExpiry` reads the already-converted room): after the
conversion every occupied slot is human-connected or bot-controlled, the room
is `playing`, and the new game starts in `playing` with the tick timer on. -/
theorem c5_theorem :
    (∀ (r : Room) (p : RoomPlayer), r.player1 = some p → p.connected = false → p.isAI = false →
      (countdownExpiry r).player1 = some { p with isAI := true }) ∧
    (∀ (r : Room) (p : RoomPlayer), r.player2 = some p → p.connected = false → p.isAI = false →
      (countdownExpiry r).player2 = some { p with isAI := true }) ∧
    (∀ (r : Room) (p : RoomPlayer), (countdownExpiry r).player1 = some p →
      p.connected = true ∨ p.isAI = true) ∧
    (∀ (r : Room) (p : RoomPlayer), (countdownExpiry r).player2 = some p →
      p.connected = true ∨ p.isAI = true) ∧
    (∀ r : Room, (countdownExpiry r).state = RoomState.playing) ∧
    (∀ r : Room, (gameAtCountdownExpiry r).gameState = GState.playing ∧
      (gameAtCountdownExpiry r).timerOn = true) := by
  have hfix : ∀ (o : Option RoomPlayer) (p : RoomPlayer), countdownExpiryFixSlot o = some p →
      p.connected = true ∨ p.isAI = true := by
    intro o p h
    match o with
    | none => exact absurd h (by simp [countdownExpiryFixSlot])
    | some q =>
      unfold countdownExpiryFixSlot at h
      by_cases hc : q.connected
      · simp [hc] at h
        exact Or.inl (h ▸ hc)
      · by_cases hb : q.isAI
        · simp [hc, hb] at h
          exact Or.inr (h ▸ hb)
        · simp [hc, hb] at h
          subst h
          exact Or.inr rfl
  have hconv : ∀ (o : Option RoomPlayer) (p : RoomPlayer), o = some p → p.connected = false →
      p.isAI = false → countdownExpiryFixSlot o = some { p with isAI := true } := by
    intro o p ho hc hb
    subst ho
    simp [countdownExpiryFixSlot, hc, hb]
  refine ⟨?_, ?_, ?_, ?_, fun r => rfl, fun r => ⟨?_, ?_⟩⟩
  · intro r p h hc hb
    exact hconv r.player1 p h hc hb
  · intro r p h hc hb
    exact hconv r.player2 p h hc hb
  · intro r p h
    exact hfix r.player1 p h
  · intro r p h
    exact hfix r.player2 p h
  · unfold gameAtCountdownExpiry initState
    dsimp only
  · unfold gameAtCountdownExpiry initState
    dsimp only

/-- Witness for `c5_theorem`: a Versus room whose player2 never reconnected
during the countdown (`connected = false`, `isAI = false`) comes out of the
expiry with player2 converted to a bot and the room `playing`. -/
theorem c5_witness :
    (countdownExpiry
        ⟨RoomState.countdown, false, 1, some ⟨true, false, false⟩, some ⟨false, false, false⟩⟩).player2 =
      some ⟨false, true, false⟩ ∧
    (countdownExpiry
        ⟨RoomState.countdown, false, 1, some ⟨true, false, false⟩,
          some ⟨false, false, false⟩⟩).state = RoomState.playing := by
  constructor
  · exact c5_theorem.2.1 _ ⟨false, false, false⟩ rfl rfl rfl
  · exact c5_theorem.2.2.2.2.1 _

/-! ### next_level guard (claim C7) -/

/-- The concrete solo room for the C7 failing input: mid-countdown, level 1,
human connected, bot slot filled. -/
def c7FailingRoom : Room :=
  ⟨RoomState.countdown, true, 1, some ⟨true, false, false⟩, some ⟨false, true, false⟩⟩

/-- Claim C7, failing-input evaluation.  The guard of `handleNextLevel`
(`room.state !== 'gameover' && room.state !== 'playing'`) also passes in the
`waiting` and `countdown` states, so a `next_level` message received
mid-countdown increments the level and restarts the countdown even though the
session is not post-LevelComplete; the code's own comment
(`Only proceed if level was completed successfully`) and the spec agree that
this should be a no-op.  The gameover/playing/non-solo no-op cases of the
claim do hold. -/
theorem c7_theorem :
    handleNextLevel c7FailingRoom = { c7FailingRoom with level := 2 } ∧
    c7FailingRoom.level = 1 ∧ c7FailingRoom.state = RoomState.countdown ∧
    handleNextLevel ⟨RoomState.waiting, true, 1, some ⟨true, false, false⟩, none⟩ =
      ⟨RoomState.countdown, true, 2, some ⟨true, false, false⟩, none⟩ ∧
    (∀ r : Room, r.state = RoomState.gameover → handleNextLevel r = r) ∧
    (∀ r : Room, r.state = RoomState.playing → handleNextLevel r = r) ∧
    (∀ r : Room, r.isSinglePlayer = false → handleNextLevel r = r) ∧
    (∀ r : Room, r.isSinglePlayer = true → r.state = RoomState.levelcomplete →
      handleNextLevel r = { r with level := r.level + 1, state := RoomState.countdown }) := by
  refine ⟨?_, rfl, rfl, ?_, ?_, ?_, ?_, ?_⟩
  · unfold handleNextLevel c7FailingRoom
    simp
  · unfold handleNextLevel
    simp
  · intro r h
    unfold handleNextLevel
    rw [h]
    simp
  · intro r h
    unfold handleNextLevel
    rw [h]
    simp
  · intro r h
    unfold handleNextLevel
    rw [h]
    simp
  · intro r hsp h
    unfold handleNextLevel
    rw [h, hsp]
    simp

/-! ### Room ids and case-insensitive join (claim C10) -/

theorem roomIdChars_spec :
    roomIdChars.length = 32 ∧ 'I' ∉ roomIdChars ∧ 'O' ∉ roomIdChars ∧
      '0' ∉ roomIdChars ∧ '1' ∉ roomIdChars ∧
      ∀ c ∈ roomIdChars, Char.toUpper c = c ∧ Char.toUpper (Char.toLower c) = c := by
  refine ⟨rfl, by decide, by decide, by decide, by decide, by decide⟩

theorem generateRoomId_length (pick : Fin 6 → Fin 32) : (generateRoomId pick).length = 6 := by
  unfold generateRoomId
  simp

theorem generateRoomId_mem (pick : Fin 6 → Fin 32) (c : Char) (h : c ∈ generateRoomId pick) :
    c ∈ roomIdChars := by
  unfold generateRoomId at h
  simp only [List.mem_map] at h
  obtain ⟨i, _, hi⟩ := h
  rw [← hi]
  apply List.get_mem

theorem strToUpper_of_spelling (s t : List Char) (hsp : IsSpelling s t)
    (ht : ∀ c ∈ t, Char.toUpper c = c ∧ Char.toUpper (Char.toLower c) = c) :
    strToUpper s = t := by
  unfold strToUpper
  induction hsp with
  | nil => rfl
  | @cons a b as bs h hrest ih =>
    have hb := ht b (List.mem_cons_self _ _)
    have hrest := fun c hc => ht c (List.mem_cons_of_mem _ hc)
    simp only [List.map_cons, ih hrest, List.cons.injEq, and_true]
    rcases h with h | h
    · rw [h]; exact hb.1
    · rw [h]; exact hb.2

theorem handleJoinLookup_none (rooms : List Char → Option Room) :
    handleJoinLookup rooms none = Except.error "Room not found".toList := rfl

theorem handleJoinLookup_found (rooms : List Char → Option Room) (key : List Char) (r : Room)
    (s : List Char) (hk : rooms key = some r) (hs : strToUpper s = key) :
    handleJoinLookup rooms (some s) = Except.ok r := by
  unfold handleJoinLookup
  dsimp only [Option.map]
  rw [hs, hk]

/-- Claim C10.  Every generated room id is 6 characters over the 32-character
alphabet excluding I, O, 0 and 1; `handleJoin` uppercases the supplied id
before lookup, so any lower- or mixed-case spelling of a generated id resolves
to the room stored under that id, and a missing id answers the
`Room not found` error instead of crashing. -/
theorem c10_theorem :
    (∀ pick : Fin 6 → Fin 32, (generateRoomId pick).length = 6) ∧
    (∀ (pick : Fin 6 → Fin 32) (c : Char), c ∈ generateRoomId pick → c ∈ roomIdChars) ∧
    (roomIdChars.length = 32 ∧ 'I' ∉ roomIdChars ∧ 'O' ∉ roomIdChars ∧
      '0' ∉ roomIdChars ∧ '1' ∉ roomIdChars) ∧
    (∀ (rooms : List Char → Option Room) (pick : Fin 6 → Fin 32) (r : Room) (s : List Char),
      rooms (generateRoomId pick) = some r → IsSpelling s (generateRoomId pick) →
      handleJoinLookup rooms (some s) = Except.ok r) ∧
    (∀ rooms : List Char → Option Room,
      handleJoinLookup rooms none = Except.error "Room not found".toList) := by
  refine ⟨generateRoomId_length, generateRoomId_mem,
    ⟨roomIdChars_spec.1, roomIdChars_spec.2.1, roomIdChars_spec.2.2.1,
      roomIdChars_spec.2.2.2.1, roomIdChars_spec.2.2.2.2.1⟩, ?_, handleJoinLookup_none⟩
  intro rooms pick r s hk hsp
  exact handleJoinLookup_found rooms (generateRoomId pick) r s hk
    (strToUpper_of_spelling s (generateRoomId pick) hsp fun c hc =>
      roomIdChars_spec.2.2.2.2.2 c (generateRoomId_mem pick c hc))

/-- A concrete sequence of random picks, generating the id "AB2345". -/
def c10pick : Fin 6 → Fin 32 := fun i =>
  match i with
  | ⟨0, _⟩ => ⟨0, by norm_num⟩
  | ⟨1, _⟩ => ⟨1, by norm_num⟩
  | ⟨2, _⟩ => ⟨24, by norm_num⟩
  | ⟨3, _⟩ => ⟨25, by norm_num⟩
  | ⟨4, _⟩ => ⟨26, by norm_num⟩
  | ⟨5, _⟩ => ⟨27, by norm_num⟩

/-- Witness for `c10_theorem`: the all-lowercase spelling of the generated id
"AB2345" resolves to the room stored under it, and a missing id errors. -/
theorem c10_witness :
    handleJoinLookup
        (fun k => if k = generateRoomId c10pick then
          some ⟨RoomState.waiting, false, 1, none, none⟩ else none)
        (some ['a', 'b', '2', '3', '4', '5']) =
      Except.ok ⟨RoomState.waiting, false, 1, none, none⟩ ∧
    handleJoinLookup (fun _ => none) none = Except.error "Room not found".toList := by
  have hpick : generateRoomId c10pick = ['A', 'B', '2', '3', '4', '5'] := by decide
  constructor
  · refine c10_theorem.2.2.2.1 _ c10pick ⟨RoomState.waiting, false, 1, none, none⟩
      ['a', 'b', '2', '3', '4', '5'] ?_ ?_
    · simp
    · rw [hpick]
      unfold IsSpelling
      decide
  · exact c10_theorem.2.2.2.2 _

/-! ### Broadcast throttling (claim C6) and terminal-check idempotence (claim C8) -/

theorem checkGameOver_idem (sp : Bool) (s : GameSt) :
    (checkGameOver sp ((checkGameOver sp s).1)).1 = (checkGameOver sp s).1 := by
  unfold checkGameOver
  dsimp only
  split_ifs <;> simp_all

theorem checkGameOver_timer (sp : Bool) (s : GameSt) (h : s.timerOn = false) :
    (checkGameOver sp s).1.timerOn = false := by
  unfold checkGameOver
  dsimp only
  split_ifs <;> simp [h]

theorem tick_terminal (sp p1IsAI p2IsAI : Bool) (p1Gen p2Gen : Input) (aiGen : ℕ → Input)
    (buf1 buf2 : Option Input) (s : GameSt) (h : ¬s.gameState = GState.playing) :
    tick sp p1IsAI p2IsAI p1Gen p2Gen aiGen buf1 buf2 s = (s, buf1, buf2) := by
  unfold tick
  have hb : (s.gameState == GState.playing) = false := by
    simp only [beq_eq_false_iff_ne, ne_eq]
    exact h
  rw [hb]
  rfl

theorem checkGameOver_emits_versus_p1 (s : GameSt) (h : s.player1.lives ≤ 0) :
    (checkGameOver false s).2 = true := by
  unfold checkGameOver
  dsimp only
  split_ifs <;> simp_all

theorem checkGameOver_emits_versus_p2 (s : GameSt) (q : Player) (h2 : s.player2 = some q)
    (h : q.lives ≤ 0) : (checkGameOver false s).2 = true := by
  unfold checkGameOver
  dsimp only
  split_ifs <;> simp_all

theorem checkGameOver_emits_solo_p1 (s : GameSt) (h : s.player1.lives ≤ 0) :
    (checkGameOver true s).2 = true := by
  unfold checkGameOver
  dsimp only
  split_ifs <;> simp_all

theorem checkGameOver_emits_solo_all (s : GameSt) (h : ∀ e ∈ s.aiPlayers, e.1.lives ≤ 0) :
    (checkGameOver true s).2 = true := by
  have hall : (s.aiPlayers.all fun e => decide (e.1.lives ≤ 0)) = true :=
    List.all_eq_true.mpr fun e he => decide_eq_true (h e he)
  unfold checkGameOver
  dsimp only
  rw [hall]
  split_ifs <;> first | rfl | simp_all

/-- Claim C6, corrected.  The first tick variant's throttle emits a snapshot
exactly when at least 33 ms have elapsed since the recorded previous broadcast
(and then re-stamps `lastBroadcast`), while the terminal-state snapshot of
`checkGameOver` is emitted unconditionally, bypassing the throttle; but the
second tick variant instead broadcasts whenever `Date.now()` is an even
millisecond value, which does not enforce any minimum spacing (see the
counterexample). -/
theorem c6_theorem :
    (∀ lastBroadcast now : ℤ, (throttleStep lastBroadcast now).2 = true ↔
      now - lastBroadcast ≥ 33) ∧
    (∀ lastBroadcast now : ℤ, (throttleStep lastBroadcast now).2 = true →
      (throttleStep lastBroadcast now).1 = now) ∧
    (∀ lastBroadcast now : ℤ, (throttleStep lastBroadcast now).2 = false →
      (throttleStep lastBroadcast now).1 = lastBroadcast) ∧
    (∀ s : GameSt, s.player1.lives ≤ 0 → (checkGameOver false s).2 = true) ∧
    (∀ (s : GameSt) (q : Player), s.player2 = some q → q.lives ≤ 0 →
      (checkGameOver false s).2 = true) ∧
    (∀ s : GameSt, s.player1.lives ≤ 0 → (checkGameOver true s).2 = true) ∧
    (∀ s : GameSt, (∀ e ∈ s.aiPlayers, e.1.lives ≤ 0) → (checkGameOver true s).2 = true) ∧
    (∀ now : ℤ, tick2BroadcastEven now = true ↔ now % 2 = 0) := by
  refine ⟨?_, ?_, ?_, checkGameOver_emits_versus_p1, checkGameOver_emits_versus_p2,
    checkGameOver_emits_solo_p1, checkGameOver_emits_solo_all, ?_⟩
  · intro lb now
    unfold throttleStep
    split_ifs with h <;> simp [h]
  · intro lb now
    unfold throttleStep
    split_ifs with h <;> simp [h]
  · intro lb now
    unfold throttleStep
    split_ifs with h <;> simp [h]
  · intro now
    unfold tick2BroadcastEven
    simp

/-- Claim C6 counterexample: under the second tick variant's broadcast rule,
ticks at clock values 100 ms and 116 ms (consecutive ticks of the 60 Hz loop)
both broadcast even though only 16 ms < 33 ms elapsed between them. -/
theorem c6_counterexample :
    tick2BroadcastEven 100 = true ∧ tick2BroadcastEven 116 = true ∧
      ¬((116 : ℤ) - 100 ≥ 33) := by
  refine ⟨rfl, rfl, by norm_num⟩

/-- Witness for `c6_theorem`: at `lastBroadcast = 0`, a tick at 40 ms emits
and re-stamps, a tick at 20 ms does not; a Versus state whose player1 is at 0
lives broadcasts the terminal snapshot unconditionally. -/
theorem c6_witness :
    (throttleStep 0 40).2 = true ∧ (throttleStep 0 40).1 = 40 ∧
      (throttleStep 0 20).2 = false ∧ (throttleStep 0 20).1 = 0 ∧
      (checkGameOver false
        { initState false 1 with player1 := { createPlayer 150 Side.left with lives := 0 } }).2 =
        true := by
  refine ⟨(c6_theorem.1 0 40).mpr (by norm_num), c6_theorem.2.1 0 40 ?_, ?_, ?_, ?_⟩
  · exact (c6_theorem.1 0 40).mpr (by norm_num)
  · by_contra hb
    have := (c6_theorem.1 0 20).mp (by revert hb; cases h : (throttleStep 0 20).2 <;> simp)
    norm_num at this
  · refine c6_theorem.2.2.1 0 20 ?_
    by_contra hb
    have := (c6_theorem.1 0 20).mp (by revert hb; cases h : (throttleStep 0 20).2 <;> simp)
    norm_num at this
  · exact c6_theorem.2.2.2.1 _ (by norm_num)

/-- Claim C8.  Running `checkGameOver` again on its own output is the
identity — in particular the recorded winner and the terminal `gameState` are
unchanged — `stop()` never turns a cancelled tick timer back on, and a full
tick on a state whose `gameState` is terminal is a no-op on the simulation
state and the input buffers. -/
theorem c8_theorem :
    (∀ (sp : Bool) (s : GameSt),
      (checkGameOver sp ((checkGameOver sp s).1)).1 = (checkGameOver sp s).1) ∧
    (∀ (sp : Bool) (s : GameSt),
      (checkGameOver sp ((checkGameOver sp s).1)).1.winner = (checkGameOver sp s).1.winner ∧
      (checkGameOver sp ((checkGameOver sp s).1)).1.gameState =
        (checkGameOver sp s).1.gameState) ∧
    (∀ (sp : Bool) (s : GameSt), s.timerOn = false → (checkGameOver sp s).1.timerOn = false) ∧
    (∀ (sp p1IsAI p2IsAI : Bool) (p1Gen p2Gen : Input) (aiGen : ℕ → Input)
      (buf1 buf2 : Option Input) (s : GameSt), ¬s.gameState = GState.playing →
      tick sp p1IsAI p2IsAI p1Gen p2Gen aiGen buf1 buf2 s = (s, buf1, buf2)) :=
  ⟨checkGameOver_idem,
    fun sp s => ⟨congrArg GameSt.winner (checkGameOver_idem sp s),
      congrArg GameSt.gameState (checkGameOver_idem sp s)⟩,
    checkGameOver_timer, tick_terminal⟩

/-- Witness for `c8_theorem`: on a concrete Versus state already in
`gameover` with the timer cancelled, a full tick is a no-op, a repeated
terminal check changes nothing, and the timer stays off. -/
theorem c8_witness :
    tick false false false emptyInput emptyInput (fun _ => emptyInput) none none
        { initState false 1 with gameState := GState.gameover, timerOn := false } =
      ({ initState false 1 with gameState := GState.gameover, timerOn := false }, none, none) ∧
    (checkGameOver false
        ((checkGameOver false
          { initState false 1 with gameState := GState.gameover, timerOn := false }).1)).1 =
      (checkGameOver false
        { initState false 1 with gameState := GState.gameover, timerOn := false }).1 ∧
    (checkGameOver false
        { initState false 1 with gameState := GState.gameover, timerOn := false }).1.timerOn =
      false :=
  ⟨c8_theorem.2.2.2 false false false emptyInput emptyInput (fun _ => emptyInput) none none
      _ fun h => GState.noConfusion h,
    c8_theorem.1 false _,
    c8_theorem.2.2.1 false _ rfl⟩

/-! ### One buffered throw spawns at most one projectile (claim C9) -/

theorem processPlayerInput_throw (gen buf : Input) (p : Player) (balls : List Ball) (rt : ℤ)
    (ht : buf.throw = true) (hb : p.hasBall = true) :
    (processPlayerInput false gen (some buf) p balls rt).balls.length = balls.length + 1 ∧
    (processPlayerInput false gen (some buf) p balls rt).buffer =
      some { buf with throw := false } ∧
    (processPlayerInput false gen (some buf) p balls rt).player.hasBall = false ∧
    (processPlayerInput false gen (some buf) p balls rt).respawn = RESPAWN_TIME := by
  have hmb : (moveSteps buf p).hasBall = true := (moveSteps_hasBall buf p).trans hb
  have hth := throwBall_of_hasBall (moveSteps buf p) balls rt hmb
  unfold processPlayerInput
  dsimp only [Option.getD]
  have hif : (if false = true then gen else buf) = buf := rfl
  rw [hif, ht, hmb, if_pos (show (true && true) = true from rfl)]
  obtain ⟨b, hbs⟩ := hth.2.2
  exact ⟨by rw [hbs]; simp, rfl, hth.1, hth.2.1⟩

theorem processPlayerInput_no_throwflag (gen buf : Input) (p : Player) (balls : List Ball)
    (rt : ℤ) (ht : buf.throw = false) :
    (processPlayerInput false gen (some buf) p balls rt).balls = balls ∧
    (processPlayerInput false gen (some buf) p balls rt).buffer = some buf ∧
    (processPlayerInput false gen (some buf) p balls rt).respawn = rt := by
  unfold processPlayerInput
  dsimp only [Option.getD]
  have hif : (if false = true then gen else buf) = buf := rfl
  rw [hif, ht, if_neg (show ¬(false && (moveSteps buf p).hasBall) = true by simp)]
  exact ⟨rfl, rfl, rfl⟩

/-- Claim C9.  When the buffered input has the throw flag set and the player
holds a projectile, processing spawns exactly one ball, clears the held-ball
flag, arms the respawn timer and clears the throw flag inside the buffer
itself; a buffer whose throw flag is clear (in particular the just-cleared
buffer, re-read on every later tick) spawns nothing and is left untouched, so
one buffered input message causes at most one projectile spawn. -/
theorem c9_theorem :
    (∀ (gen buf : Input) (p : Player) (balls : List Ball) (rt : ℤ),
      buf.throw = true → p.hasBall = true →
      (processPlayerInput false gen (some buf) p balls rt).balls.length = balls.length + 1 ∧
      (processPlayerInput false gen (some buf) p balls rt).buffer =
        some { buf with throw := false } ∧
      (processPlayerInput false gen (some buf) p balls rt).player.hasBall = false ∧
      (processPlayerInput false gen (some buf) p balls rt).respawn = RESPAWN_TIME) ∧
    (∀ (gen buf : Input) (p : Player) (balls : List Ball) (rt : ℤ), buf.throw = false →
      (processPlayerInput false gen (some buf) p balls rt).balls = balls ∧
      (processPlayerInput false gen (some buf) p balls rt).buffer = some buf ∧
      (processPlayerInput false gen (some buf) p balls rt).respawn = rt) ∧
    (∀ buf : Input, ({ buf with throw := false } : Input).throw = false) :=
  ⟨processPlayerInput_throw, processPlayerInput_no_throwflag, fun _ => rfl⟩

/-- Witness for `c9_theorem`: the fresh left player with a throw-flagged
buffer spawns one ball and the buffer comes back cleared; re-processing with
the cleared buffer spawns nothing. -/
theorem c9_witness :
    (processPlayerInput false emptyInput (some ⟨false, false, false, false, true⟩)
        (createPlayer 150 Side.left) [] 0).balls.length = 1 ∧
    (processPlayerInput false emptyInput (some ⟨false, false, false, false, true⟩)
        (createPlayer 150 Side.left) [] 0).buffer =
      some ⟨false, false, false, false, false⟩ ∧
    (processPlayerInput false emptyInput (some ⟨false, false, false, false, false⟩)
        (createPlayer 150 Side.left) [] 0).balls = [] := by
  have h1 := c9_theorem.1 emptyInput ⟨false, false, false, false, true⟩
    (createPlayer 150 Side.left) [] 0 rfl rfl
  have h2 := c9_theorem.2.1 emptyInput ⟨false, false, false, false, false⟩
    (createPlayer 150 Side.left) [] 0 rfl
  exact ⟨h1.1, h1.2.1, h2.1⟩

/-! ### Collision-phase relations (infrastructure for claims C2 and C3) -/

theorem foldl_inv {α β : Type} {P : β → Prop} {f : β → α → β}
    (hstep : ∀ b a, P b → P (f b a)) :
    ∀ (l : List α) (b : β), P b → P (l.foldl f b)
  | [], _, h => h
  | a :: l, b, h => foldl_inv hstep l (f b a) (hstep b a h)

theorem forall₂_get {α β : Type} {R : α → β → Prop} :
    ∀ {l : List α} {l' : List β}, List.Forall₂ R l l' → ∀ (j : ℕ) (a : α), l[j]? = some a →
      ∃ b, l'[j]? = some b ∧ R a b := by
  intro l l' h
  induction h with
  | nil => intro j a ha; simp at ha
  | @cons x y xs ys hxy _ ih =>
    intro j a ha
    match j with
    | 0 =>
      simp only [List.getElem?_cons_zero, Option.some.injEq] at ha
      exact ⟨y, by simp, ha ▸ hxy⟩
    | j + 1 =>
      simp only [List.getElem?_cons_succ] at ha ⊢
      exact ih j a ha

theorem forall₂_trans_hit {α : Type} {R : α → α → Prop}
    (htrans : ∀ a b c, R a b → R b c → R a c) :
    ∀ {l₁ l₂ l₃ : List α}, List.Forall₂ R l₁ l₂ → List.Forall₂ R l₂ l₃ →
      List.Forall₂ R l₁ l₃ := by
  intro l₁ l₂ l₃ h12
  induction h12 generalizing l₃ with
  | nil => intro h; cases h; exact List.Forall₂.nil
  | @cons a b as bs hab _ ih =>
    intro h23
    cases h23 with
    | cons hbc h' => exact List.Forall₂.cons (htrans _ _ _ hab hbc) (ih h')

/-- How one pass of `checkCollisions` may change a human combatant: untouched,
or hit once (only if it was not invincible; a hit makes it invincible). -/
def HitRelP (p p' : Player) : Prop :=
  p' = p ∨ (p.isInvincible = false ∧ p' = hitHuman p)

/-- How one pass of `checkCollisions` may change an AI entry: untouched, or
hit once (only live, non-invincible AIs can be hit; the respawn timer is never
touched). -/
def HitRel (e e' : Player × ℤ) : Prop :=
  e' = e ∨ (0 < e.1.lives ∧ e.1.isInvincible = false ∧ e' = (hitAI e.1, e.2))

/-- The relation between the optional `player2` before and after
`checkCollisions`. -/
def OptHitRelP : Option Player → Option Player → Prop
  | none, o' => o' = none
  | some p, o' => ∃ p', o' = some p' ∧ HitRelP p p'

theorem HitRelP_refl (p : Player) : HitRelP p p := Or.inl rfl

theorem HitRel_refl (e : Player × ℤ) : HitRel e e := Or.inl rfl

theorem OptHitRelP_refl (o : Option Player) : OptHitRelP o o := by
  cases o with
  | none => rfl
  | some p => exact ⟨p, rfl, HitRelP_refl p⟩

theorem HitRelP_trans (p q q' : Player) (h1 : HitRelP p q) (h2 : HitRelP q q') :
    HitRelP p q' := by
  rcases h1 with h1 | ⟨hinv, h1⟩
  · subst h1; exact h2
  · subst h1
    rcases h2 with h2 | ⟨hinv2, h2⟩
    · subst h2; exact Or.inr ⟨hinv, rfl⟩
    · rw [hitHuman_isInvincible] at hinv2
      exact absurd hinv2 (by simp)

theorem HitRel_trans (e f g : Player × ℤ) (h1 : HitRel e f) (h2 : HitRel f g) : HitRel e g := by
  rcases h1 with h1 | ⟨hl, hinv, h1⟩
  · subst h1; exact h2
  · subst h1
    rcases h2 with h2 | ⟨hl2, hinv2, h2⟩
    · subst h2; exact Or.inr ⟨hl, hinv, rfl⟩
    · rw [show ((hitAI e.1, e.2) : Player × ℤ).1 = hitAI e.1 from rfl,
        hitAI_isInvincible] at hinv2
      exact absurd hinv2 (by simp)

theorem HitRelP_lives (p p' : Player) (h : HitRelP p p') :
    p'.lives = p.lives ∨ (p'.lives = p.lives - 1 ∧ p'.isInvincible = true) := by
  rcases h with h | ⟨_, h⟩
  · exact Or.inl (by rw [h])
  · exact Or.inr ⟨by rw [h, hitHuman_lives], by rw [h, hitHuman_isInvincible]⟩

theorem HitRelP_hasBall (p p' : Player) (h : HitRelP p p') : p'.hasBall = p.hasBall := by
  rcases h with h | ⟨_, h⟩
  · rw [h]
  · rw [h, hitHuman_hasBall]

theorem HitRel_lives_nonneg (e e' : Player × ℤ) (h : HitRel e e') (hn : 0 ≤ e.1.lives) :
    0 ≤ e'.1.lives := by
  rcases h with h | ⟨hl, _, h⟩
  · rw [h]; exact hn
  · rw [h, show ((hitAI e.1, e.2) : Player × ℤ).1 = hitAI e.1 from rfl, hitAI_lives]
    omega

theorem HitRel_dead (e e' : Player × ℤ) (h : HitRel e e') (hd : e.1.lives ≤ 0) : e' = e := by
  rcases h with h | ⟨hl, _, _⟩
  · exact h
  · omega

theorem forall₂_hitRel_refl : ∀ l : List (Player × ℤ), List.Forall₂ HitRel l l
  | [] => List.Forall₂.nil
  | e :: l => List.Forall₂.cons (HitRel_refl e) (forall₂_hitRel_refl l)

theorem aiCollideScan_rel (ball : Ball) :
    ∀ (l l' : List (Player × ℤ)), aiCollideScan ball l = some l' → List.Forall₂ HitRel l l' := by
  intro l
  induction l with
  | nil => intro l' h; simp [aiCollideScan] at h
  | cons e rest ih =>
    intro l' h
    obtain ⟨ai, t⟩ := e
    unfold aiCollideScan at h
    split_ifs at h with h1 h2 h3 h4
    · obtain ⟨rest', hr, hmap⟩ := Option.map_eq_some'.mp h
      exact hmap ▸ List.Forall₂.cons (HitRel_refl _) (ih rest' hr)
    · obtain ⟨rest', hr, hmap⟩ := Option.map_eq_some'.mp h
      exact hmap ▸ List.Forall₂.cons (HitRel_refl _) (ih rest' hr)
    · obtain ⟨rest', hr, hmap⟩ := Option.map_eq_some'.mp h
      exact hmap ▸ List.Forall₂.cons (HitRel_refl _) (ih rest' hr)
    · cases h
      refine List.Forall₂.cons (Or.inr ⟨?_, by simpa using h3, rfl⟩) (forall₂_hitRel_refl rest)
      show 0 < ai.lives
      omega
    · obtain ⟨rest', hr, hmap⟩ := Option.map_eq_some'.mp h
      exact hmap ▸ List.Forall₂.cons (HitRel_refl _) (ih rest' hr)

theorem aiCollideScan_none_of_dead (ball : Ball) :
    ∀ l : List (Player × ℤ), (∀ e ∈ l, e.1.lives ≤ 0) → aiCollideScan ball l = none := by
  intro l
  induction l with
  | nil => intro _; rfl
  | cons e rest ih =>
    intro h
    obtain ⟨ai, t⟩ := e
    unfold aiCollideScan
    rw [if_pos (h (ai, t) (List.mem_cons_self _ _)),
      ih fun f hf => h f (List.mem_cons_of_mem _ hf)]
    rfl

/-- Fold invariant of the ball loop of `checkCollisions`, relative to the
combatants entering the phase. -/
def AccRel (p1 : Player) (p2 : Option Player) (ais : List (Player × ℤ)) (acc : ColAcc) : Prop :=
  HitRelP p1 acc.player1 ∧ OptHitRelP p2 acc.player2 ∧ List.Forall₂ HitRel ais acc.aiPlayers

theorem collideStep_rel (sp : Bool) (p1 : Player) (p2 : Option Player)
    (ais : List (Player × ℤ)) (acc : ColAcc) (ball : Ball) (h : AccRel p1 p2 ais acc) :
    AccRel p1 p2 ais (collideStep sp acc ball) := by
  obtain ⟨h1, h2, h3⟩ := h
  unfold collideStep
  split_ifs with hinact hhit hsp
  · exact ⟨h1, h2, h3⟩
  · have hinv : acc.player1.isInvincible = false := by
      simp only [Bool.and_eq_true, Bool.not_eq_true'] at hhit
      exact hhit.1.2
    exact ⟨HitRelP_trans _ _ _ h1 (Or.inr ⟨hinv, rfl⟩), h2, h3⟩
  · cases hscan : aiCollideScan ball acc.aiPlayers with
    | some ais' =>
      exact ⟨h1, h2, forall₂_trans_hit HitRel_trans h3 (aiCollideScan_rel ball _ _ hscan)⟩
    | none => exact ⟨h1, h2, h3⟩
  · cases hp2 : acc.player2 with
    | none =>
      refine ⟨h1, ?_, h3⟩
      rw [hp2] at h2
      exact h2
    | some q =>
      rw [hp2] at h2
      dsimp only
      split_ifs with hq
      · have hinvq : q.isInvincible = false := by
          simp only [Bool.and_eq_true, Bool.not_eq_true'] at hq
          exact hq.1.2
        cases hp : p2 with
        | none => rw [hp] at h2; cases h2
        | some p =>
          rw [hp] at h2
          obtain ⟨p', hp', hrel⟩ := h2
          rw [Option.some.injEq] at hp'
          subst hp'
          exact ⟨h1, ⟨hitHuman q, rfl, HitRelP_trans _ _ _ hrel (Or.inr ⟨hinvq, rfl⟩)⟩, h3⟩
      · exact ⟨h1, h2, h3⟩

theorem checkCollisions_rel (sp : Bool) (s : GameSt) :
    HitRelP s.player1 (checkCollisions sp s).player1 ∧
    OptHitRelP s.player2 (checkCollisions sp s).player2 ∧
    List.Forall₂ HitRel s.aiPlayers (checkCollisions sp s).aiPlayers := by
  have h := foldl_inv (collideStep_rel sp s.player1 s.player2 s.aiPlayers) s.balls
    ⟨s.player1, s.player2, s.aiPlayers, []⟩
    ⟨HitRelP_refl _, OptHitRelP_refl _, forall₂_hitRel_refl _⟩
  exact ⟨h.1, h.2.1, h.2.2⟩

theorem checkCollisions_fields (sp : Bool) (s : GameSt) :
    (checkCollisions sp s).gameState = s.gameState ∧
    (checkCollisions sp s).level = s.level ∧
    (checkCollisions sp s).respawnP1 = s.respawnP1 ∧
    (checkCollisions sp s).respawnP2 = s.respawnP2 ∧
    (checkCollisions sp s).winner = s.winner ∧
    (checkCollisions sp s).timerOn = s.timerOn :=
  ⟨rfl, rfl, rfl, rfl, rfl, rfl⟩

/-! ### Pointwise lemmas for the per-AI phases -/

theorem processAIList_get (inputs : ℕ → Input) :
    ∀ (l : List (Player × ℤ)) (i j : ℕ) (e : Player × ℤ), l[j]? = some e →
      ∃ e', (processAIList inputs i l).1[j]? = some e' ∧ e'.1.lives = e.1.lives ∧
        (e.1.lives ≤ 0 → e' = e) := by
  intro l
  induction l with
  | nil => intro i j e he; simp at he
  | cons f rest ih =>
    intro i j e he
    obtain ⟨ai, t⟩ := f
    match j with
    | 0 =>
      simp only [List.getElem?_cons_zero, Option.some.injEq] at he
      subst he
      refine ⟨((processAIPlayerInput ai (inputs i)).1,
        if (processAIPlayerInput ai (inputs i)).2.isSome then RESPAWN_TIME else t), ?_, ?_, ?_⟩
      · simp [processAIList]
      · exact processAIPlayerInput_player_lives ai (inputs i)
      · intro hd
        rw [processAIPlayerInput_dead ai (inputs i) hd]
        rfl
    | j + 1 =>
      simp only [List.getElem?_cons_succ] at he
      obtain ⟨e', h1, h2, h3⟩ := ih (i + 1) j e he
      refine ⟨e', ?_, h2, h3⟩
      simp only [processAIList]
      simpa using h1

theorem updateAIs_get (l : List (Player × ℤ)) (j : ℕ) (e : Player × ℤ) (he : l[j]? = some e) :
    ∃ e', (l.map fun f => (updateAIPlayer f.1, f.2))[j]? = some e' ∧ e'.1.lives = e.1.lives ∧
      (e.1.lives ≤ 0 → e' = e) := by
  refine ⟨(updateAIPlayer e.1, e.2), ?_, updateAIPlayer_lives e.1, ?_⟩
  · rw [List.getElem?_map, he]
    rfl
  · intro hd
    rw [updateAIPlayer_dead e.1 hd]

theorem updateRespawnTimers_ai_get (s : GameSt) (j : ℕ) (e : Player × ℤ)
    (he : s.aiPlayers[j]? = some e) :
    ∃ e', (updateRespawnTimers true s).aiPlayers[j]? = some e' ∧ e'.1.lives = e.1.lives ∧
      (e.1.lives ≤ 0 → e' = e) := by
  unfold updateRespawnTimers
  dsimp only
  split_ifs with hsp
  · refine ⟨if e.1.lives ≤ 0 then e else
        (({ e.1 with hasBall := (respawnStep e.1.hasBall e.2).1 },
          (respawnStep e.1.hasBall e.2).2)),
      ?_, ?_, ?_⟩
    · rw [List.getElem?_map, he]
      simp only [Option.map_some']
      try split_ifs <;> rfl
    · split_ifs <;> rfl
    · intro hd
      rw [if_pos hd]
  · exact absurd rfl hsp

theorem updateRespawnTimers_p1 (sp : Bool) (s : GameSt) :
    (updateRespawnTimers sp s).player1.hasBall = (respawnStep s.player1.hasBall s.respawnP1).1 ∧
    (updateRespawnTimers sp s).respawnP1 = (respawnStep s.player1.hasBall s.respawnP1).2 ∧
    (updateRespawnTimers sp s).player1.lives = s.player1.lives ∧
    (updateRespawnTimers sp s).gameState = s.gameState := by
  unfold updateRespawnTimers
  dsimp only
  split_ifs with h
  · exact ⟨rfl, rfl, rfl, rfl⟩
  · cases hp2 : s.player2 with
    | none => exact ⟨rfl, rfl, rfl, rfl⟩
    | some q => exact ⟨rfl, rfl, rfl, rfl⟩

theorem updateRespawnTimers_p2 (s : GameSt) (q : Player) (h2 : s.player2 = some q) :
    (updateRespawnTimers false s).player2 =
      some { q with hasBall := (respawnStep q.hasBall s.respawnP2).1 } ∧
    (updateRespawnTimers false s).respawnP2 = (respawnStep q.hasBall s.respawnP2).2 := by
  unfold updateRespawnTimers
  dsimp only
  rw [if_neg (show ¬false = true by simp)]
  rw [h2]
  exact ⟨rfl, rfl⟩

theorem updateRespawnTimers_p2_none (s : GameSt) (h2 : s.player2 = none) :
    (updateRespawnTimers false s).player2 = none := by
  unfold updateRespawnTimers
  dsimp only
  rw [if_neg (show ¬false = true by simp)]
  rw [h2]

theorem updateRespawnTimers_gameState (sp : Bool) (s : GameSt) :
    (updateRespawnTimers sp s).gameState = s.gameState :=
  (updateRespawnTimers_p1 sp s).2.2.2

/-! ### checkGameOver and tick-phase lemmas -/

theorem checkGameOver_fields (sp : Bool) (s : GameSt) :
    (checkGameOver sp s).1.player1 = s.player1 ∧ (checkGameOver sp s).1.player2 = s.player2 ∧
    (checkGameOver sp s).1.aiPlayers = s.aiPlayers ∧
    (checkGameOver sp s).1.respawnP1 = s.respawnP1 ∧
    (checkGameOver sp s).1.respawnP2 = s.respawnP2 := by
  unfold checkGameOver
  dsimp only
  split_ifs <;> exact ⟨rfl, rfl, rfl, rfl, rfl⟩

theorem checkGameOver_playing_versus (s : GameSt)
    (h : (checkGameOver false s).1.gameState = GState.playing) :
    0 < s.player1.lives ∧ ∀ q : Player, s.player2 = some q → 0 < q.lives := by
  unfold checkGameOver at h
  dsimp only at h
  rw [if_neg (show ¬false = true by simp)] at h
  by_cases hc : s.player1.lives ≤ 0 ∨ (Option.map Player.lives s.player2).getD 0 ≤ 0
  · rw [if_pos hc] at h
    exact GState.noConfusion h
  · push_neg at hc
    refine ⟨by omega, ?_⟩
    intro q hq
    have h2 := hc.2
    rw [hq] at h2
    simp only [Option.map_some', Option.getD_some] at h2
    omega

theorem checkGameOver_playing_solo (s : GameSt)
    (h : (checkGameOver true s).1.gameState = GState.playing) : 0 < s.player1.lives := by
  unfold checkGameOver at h
  dsimp only at h
  rw [if_pos (show true = true from rfl)] at h
  by_cases h1 : s.player1.lives ≤ 0
  · rw [if_pos h1] at h
    exact GState.noConfusion h
  · omega

theorem tick_playing (sp p1IsAI p2IsAI : Bool) (p1Gen p2Gen : Input) (aiGen : ℕ → Input)
    (buf1 buf2 : Option Input) (s : GameSt) (h : s.gameState = GState.playing) :
    tick sp p1IsAI p2IsAI p1Gen p2Gen aiGen buf1 buf2 s =
      ((checkGameOver sp (updateRespawnTimers sp (checkCollisions sp (tickBalls
        (tickUpdates sp p1IsAI p2IsAI
          (tickInputs sp p1IsAI p2IsAI p1Gen p2Gen aiGen buf1 buf2 s).1))))).1,
        (tickInputs sp p1IsAI p2IsAI p1Gen p2Gen aiGen buf1 buf2 s).2) := by
  unfold tick
  rw [show (s.gameState == GState.playing) = true by simp [h]]
  rfl

theorem tickInputs_p1 (sp p1IsAI p2IsAI : Bool) (p1Gen p2Gen : Input) (aiGen : ℕ → Input)
    (buf1 buf2 : Option Input) (s : GameSt) :
    (tickInputs sp p1IsAI p2IsAI p1Gen p2Gen aiGen buf1 buf2 s).1.player1 =
      (processPlayerInput p1IsAI p1Gen buf1 s.player1 s.balls s.respawnP1).player ∧
    (tickInputs sp p1IsAI p2IsAI p1Gen p2Gen aiGen buf1 buf2 s).1.gameState = s.gameState := by
  unfold tickInputs
  dsimp only
  split_ifs
  · exact ⟨rfl, rfl⟩
  · cases hp2 : s.player2 with
    | some q => exact ⟨rfl, rfl⟩
    | none => exact ⟨rfl, rfl⟩

theorem tickInputs_solo_ai (p1IsAI p2IsAI : Bool) (p1Gen p2Gen : Input) (aiGen : ℕ → Input)
    (buf1 buf2 : Option Input) (s : GameSt) :
    (tickInputs true p1IsAI p2IsAI p1Gen p2Gen aiGen buf1 buf2 s).1.aiPlayers =
      (processAIList aiGen 0 s.aiPlayers).1 := rfl

theorem tickInputs_versus_p2 (p1IsAI p2IsAI : Bool) (p1Gen p2Gen : Input) (aiGen : ℕ → Input)
    (buf1 buf2 : Option Input) (s : GameSt) :
    ((s.player2 = none →
      (tickInputs false p1IsAI p2IsAI p1Gen p2Gen aiGen buf1 buf2 s).1.player2 = none) ∧
     (∀ q : Player, s.player2 = some q →
      ∃ q', (tickInputs false p1IsAI p2IsAI p1Gen p2Gen aiGen buf1 buf2 s).1.player2 = some q' ∧
        q'.lives = q.lives)) := by
  unfold tickInputs
  dsimp only
  rw [if_neg (show ¬false = true by simp)]
  constructor
  · intro h2
    rw [h2]
  · intro q h2
    rw [h2]
    exact ⟨_, rfl, processPlayerInput_player_lives _ _ _ _ _ _⟩

theorem tickUpdates_p1 (sp p1IsAI p2IsAI : Bool) (s : GameSt) :
    (tickUpdates sp p1IsAI p2IsAI s).player1 = updatePlayer p1IsAI s.player1 ∧
    (tickUpdates sp p1IsAI p2IsAI s).gameState = s.gameState := by
  unfold tickUpdates
  dsimp only
  split_ifs
  · exact ⟨rfl, rfl⟩
  · cases hp2 : s.player2 with
    | some q => exact ⟨rfl, rfl⟩
    | none => exact ⟨rfl, rfl⟩

theorem tickUpdates_solo_ai (p1IsAI p2IsAI : Bool) (s : GameSt) :
    (tickUpdates true p1IsAI p2IsAI s).aiPlayers =
      s.aiPlayers.map fun e => (updateAIPlayer e.1, e.2) := rfl

theorem tickUpdates_versus_p2 (p1IsAI p2IsAI : Bool) (s : GameSt) :
    ((s.player2 = none → (tickUpdates false p1IsAI p2IsAI s).player2 = none) ∧
     (∀ q : Player, s.player2 = some q →
      (tickUpdates false p1IsAI p2IsAI s).player2 = some (updatePlayer p2IsAI q))) := by
  unfold tickUpdates
  dsimp only
  rw [if_neg (show ¬false = true by simp)]
  constructor
  · intro h2
    rw [h2]
  · intro q h2
    rw [h2]

theorem tickBalls_fields (s : GameSt) :
    (tickBalls s).player1 = s.player1 ∧ (tickBalls s).player2 = s.player2 ∧
    (tickBalls s).aiPlayers = s.aiPlayers ∧ (tickBalls s).gameState = s.gameState ∧
    (tickBalls s).respawnP1 = s.respawnP1 ∧ (tickBalls s).respawnP2 = s.respawnP2 :=
  ⟨rfl, rfl, rfl, rfl, rfl, rfl⟩

/-! ### Dead AI combatants are excluded from collision checks -/

theorem collideStep_skip (acc : ColAcc) (ball : Ball) (hown : ball.owner = acc.player1.side)
    (hdead : ∀ e ∈ acc.aiPlayers, e.1.lives ≤ 0) :
    collideStep true acc ball = { acc with done := acc.done ++ [ball] } := by
  unfold collideStep
  split_ifs with h1 h2 h3
  · rfl
  · exfalso
    simp [hown] at h2
  · rw [aiCollideScan_none_of_dead ball acc.aiPlayers hdead]
  · exact absurd rfl h3

theorem foldl_collideStep_skip :
    ∀ (balls : List Ball) (acc : ColAcc), (∀ b ∈ balls, b.owner = acc.player1.side) →
      (∀ e ∈ acc.aiPlayers, e.1.lives ≤ 0) →
      balls.foldl (collideStep true) acc = { acc with done := acc.done ++ balls } := by
  intro balls
  induction balls with
  | nil => intro acc _ _; simp
  | cons b rest ih =>
    intro acc hown hdead
    simp only [List.foldl_cons]
    rw [collideStep_skip acc b (hown b (List.mem_cons_self _ _)) hdead]
    rw [ih { acc with done := acc.done ++ [b] }
      (fun b' hb' => hown b' (List.mem_cons_of_mem _ hb')) hdead]
    simp

theorem checkCollisions_all_dead (s : GameSt) (hside : s.player1.side = Side.left)
    (hdead : ∀ e ∈ s.aiPlayers, e.1.lives ≤ 0) (hown : ∀ b ∈ s.balls, b.owner = Side.left) :
    checkCollisions true s = s := by
  unfold checkCollisions
  dsimp only
  rw [foldl_collideStep_skip s.balls ⟨s.player1, s.player2, s.aiPlayers, []⟩
    (fun b hb => (hown b hb).trans hside.symm) hdead]
  simp

/-! ### Forward composition lemmas through one tick -/

theorem processAIList_length (inputs : ℕ → Input) :
    ∀ (i : ℕ) (l : List (Player × ℤ)), (processAIList inputs i l).1.length = l.length := by
  intro i l
  induction l generalizing i with
  | nil => rfl
  | cons f rest ih =>
    obtain ⟨ai, t⟩ := f
    simp only [processAIList, List.length_cons]
    rw [ih (i + 1)]

theorem updateRespawnTimers_ai_length (s : GameSt) :
    (updateRespawnTimers true s).aiPlayers.length = s.aiPlayers.length := by
  unfold updateRespawnTimers
  dsimp only
  rw [if_pos (show true = true from rfl)]
  exact List.length_map _ _

/-- One solo tick, index by index: a dead AI entry is frozen exactly, and an
entry with non-negative lives keeps them non-negative. -/
theorem tick_solo_ai_forward (p1IsAI p2IsAI : Bool) (p1Gen p2Gen : Input) (aiGen : ℕ → Input)
    (buf1 buf2 : Option Input) (s : GameSt) (hp : s.gameState = GState.playing) (j : ℕ)
    (e : Player × ℤ) (he : s.aiPlayers[j]? = some e) :
    ∃ e', ((tick true p1IsAI p2IsAI p1Gen p2Gen aiGen buf1 buf2 s).1).aiPlayers[j]? = some e' ∧
      (0 ≤ e.1.lives → 0 ≤ e'.1.lives) ∧ (e.1.lives ≤ 0 → e' = e) := by
  rw [tick_playing _ _ _ _ _ _ _ _ _ hp]
  dsimp only
  obtain ⟨e1, h1, hl1, hd1⟩ := processAIList_get aiGen s.aiPlayers 0 j e he
  have hS1 : (tickInputs true p1IsAI p2IsAI p1Gen p2Gen aiGen buf1 buf2 s).1.aiPlayers[j]? =
      some e1 := by
    rw [tickInputs_solo_ai]
    exact h1
  obtain ⟨e2, h2, hl2, hd2⟩ := updateAIs_get _ j e1 hS1
  have hS2 : (tickUpdates true p1IsAI p2IsAI
      (tickInputs true p1IsAI p2IsAI p1Gen p2Gen aiGen buf1 buf2 s).1).aiPlayers[j]? =
      some e2 := by
    rw [tickUpdates_solo_ai]
    exact h2
  have hS3 : (tickBalls (tickUpdates true p1IsAI p2IsAI
      (tickInputs true p1IsAI p2IsAI p1Gen p2Gen aiGen buf1 buf2 s).1)).aiPlayers[j]? =
      some e2 := hS2
  obtain ⟨e4, h4, hrel⟩ := forall₂_get (checkCollisions_rel true _).2.2 j e2 hS3
  obtain ⟨e5, h5, hl5, hd5⟩ := updateRespawnTimers_ai_get _ j e4 h4
  refine ⟨e5, ?_, ?_, ?_⟩
  · rw [(checkGameOver_fields true _).2.2.1]
    exact h5
  · intro hn
    have h4n : 0 ≤ e4.1.lives := HitRel_lives_nonneg e2 e4 hrel (by rw [hl2, hl1]; exact hn)
    rw [hl5]
    exact h4n
  · intro hd
    have hde1 : e1 = e := hd1 hd
    subst hde1
    have hde2 : e2 = e1 := hd2 (by rw [hl1]; exact hd)
    subst hde2
    have hde4 : e4 = e2 := HitRel_dead e2 e4 hrel (by rw [hl2, hl1]; exact hd)
    subst hde4
    exact hd5 (by rw [hl2, hl1]; exact hd)

/-- One tick changes player1's lives by at most one (a hit), in either mode. -/
theorem tick_p1_lives (sp p1IsAI p2IsAI : Bool) (p1Gen p2Gen : Input) (aiGen : ℕ → Input)
    (buf1 buf2 : Option Input) (s : GameSt) (hp : s.gameState = GState.playing) :
    (tick sp p1IsAI p2IsAI p1Gen p2Gen aiGen buf1 buf2 s).1.player1.lives = s.player1.lives ∨
    (tick sp p1IsAI p2IsAI p1Gen p2Gen aiGen buf1 buf2 s).1.player1.lives =
      s.player1.lives - 1 := by
  rw [tick_playing _ _ _ _ _ _ _ _ _ hp]
  dsimp only
  rw [(checkGameOver_fields sp _).1]
  have hS1 := (tickInputs_p1 sp p1IsAI p2IsAI p1Gen p2Gen aiGen buf1 buf2 s).1
  have hS2 := (tickUpdates_p1 sp p1IsAI p2IsAI
    (tickInputs sp p1IsAI p2IsAI p1Gen p2Gen aiGen buf1 buf2 s).1).1
  have hrel := (checkCollisions_rel sp (tickBalls (tickUpdates sp p1IsAI p2IsAI
    (tickInputs sp p1IsAI p2IsAI p1Gen p2Gen aiGen buf1 buf2 s).1))).1
  have hS5 := (updateRespawnTimers_p1 sp (checkCollisions sp (tickBalls (tickUpdates sp p1IsAI
    p2IsAI (tickInputs sp p1IsAI p2IsAI p1Gen p2Gen aiGen buf1 buf2 s).1)))).2.2.1
  have hlives : (tickBalls (tickUpdates sp p1IsAI p2IsAI
      (tickInputs sp p1IsAI p2IsAI p1Gen p2Gen aiGen buf1 buf2 s).1)).player1.lives =
      s.player1.lives := by
    rw [(tickBalls_fields _).1, hS2, updatePlayer_lives, hS1, processPlayerInput_player_lives]
  rw [hS5]
  rcases HitRelP_lives _ _ hrel with h | ⟨h, _⟩
  · rw [h, (tickBalls_fields _).1, hS2, updatePlayer_lives, hS1,
      processPlayerInput_player_lives]
    exact Or.inl rfl
  · rw [h, (tickBalls_fields _).1, hS2, updatePlayer_lives, hS1,
      processPlayerInput_player_lives]
    exact Or.inr rfl

/-- One Versus tick: `player2` stays absent if absent, and otherwise loses at
most one life. -/
theorem tick_versus_p2_forward (p1IsAI p2IsAI : Bool) (p1Gen p2Gen : Input) (aiGen : ℕ → Input)
    (buf1 buf2 : Option Input) (s : GameSt) (hp : s.gameState = GState.playing) :
    ((s.player2 = none →
      (tick false p1IsAI p2IsAI p1Gen p2Gen aiGen buf1 buf2 s).1.player2 = none) ∧
     (∀ q : Player, s.player2 = some q →
      ∃ q', (tick false p1IsAI p2IsAI p1Gen p2Gen aiGen buf1 buf2 s).1.player2 = some q' ∧
        (q'.lives = q.lives ∨ q'.lives = q.lives - 1))) := by
  rw [tick_playing _ _ _ _ _ _ _ _ _ hp]
  dsimp only
  rw [(checkGameOver_fields false _).2.1]
  constructor
  · intro h2
    have hS1 := (tickInputs_versus_p2 p1IsAI p2IsAI p1Gen p2Gen aiGen buf1 buf2 s).1 h2
    have hS2 := (tickUpdates_versus_p2 p1IsAI p2IsAI
      (tickInputs false p1IsAI p2IsAI p1Gen p2Gen aiGen buf1 buf2 s).1).1 hS1
    have hS3 : (tickBalls (tickUpdates false p1IsAI p2IsAI
        (tickInputs false p1IsAI p2IsAI p1Gen p2Gen aiGen buf1 buf2 s).1)).player2 = none := hS2
    have hrel := (checkCollisions_rel false (tickBalls (tickUpdates false p1IsAI p2IsAI
      (tickInputs false p1IsAI p2IsAI p1Gen p2Gen aiGen buf1 buf2 s).1))).2.1
    rw [hS3] at hrel
    have hS4 : (checkCollisions false (tickBalls (tickUpdates false p1IsAI p2IsAI
        (tickInputs false p1IsAI p2IsAI p1Gen p2Gen aiGen buf1 buf2 s).1))).player2 = none := hrel
    exact updateRespawnTimers_p2_none _ hS4
  · intro q h2
    obtain ⟨q1, hq1, hl1⟩ :=
      (tickInputs_versus_p2 p1IsAI p2IsAI p1Gen p2Gen aiGen buf1 buf2 s).2 q h2
    have hq2 := (tickUpdates_versus_p2 p1IsAI p2IsAI
      (tickInputs false p1IsAI p2IsAI p1Gen p2Gen aiGen buf1 buf2 s).1).2 q1 hq1
    have hq3 : (tickBalls (tickUpdates false p1IsAI p2IsAI
        (tickInputs false p1IsAI p2IsAI p1Gen p2Gen aiGen buf1 buf2 s).1)).player2 =
        some (updatePlayer p2IsAI q1) := hq2
    have hrel := (checkCollisions_rel false (tickBalls (tickUpdates false p1IsAI p2IsAI
      (tickInputs false p1IsAI p2IsAI p1Gen p2Gen aiGen buf1 buf2 s).1))).2.1
    rw [hq3] at hrel
    obtain ⟨q4, hq4, hrel4⟩ := hrel
    obtain ⟨hq5, _⟩ := updateRespawnTimers_p2 _ q4 hq4
    refine ⟨{ q4 with hasBall := (respawnStep q4.hasBall _).1 }, hq5, ?_⟩
    have hl4 : q4.lives = q1.lives ∨ q4.lives = q1.lives - 1 := by
      rcases HitRelP_lives _ _ hrel4 with h | ⟨h, _⟩
      · rw [h, updatePlayer_lives]
        exact Or.inl rfl
      · rw [h, updatePlayer_lives]
        exact Or.inr rfl
    show ({ q4 with hasBall := (respawnStep q4.hasBall _).1 } : Player).lives = q.lives ∨ _
    dsimp only
    rw [← hl1]
    exact hl4

/-- If a Versus tick ends still `playing`, both combatants came out with
positive lives (the terminal check ran on the final lives). -/
theorem tick_alive_versus (p1IsAI p2IsAI : Bool) (p1Gen p2Gen : Input) (aiGen : ℕ → Input)
    (buf1 buf2 : Option Input) (s : GameSt)
    (h : (tick false p1IsAI p2IsAI p1Gen p2Gen aiGen buf1 buf2 s).1.gameState =
      GState.playing) :
    0 < (tick false p1IsAI p2IsAI p1Gen p2Gen aiGen buf1 buf2 s).1.player1.lives ∧
    ∀ q : Player, (tick false p1IsAI p2IsAI p1Gen p2Gen aiGen buf1 buf2 s).1.player2 = some q →
      0 < q.lives := by
  by_cases hp : s.gameState = GState.playing
  · rw [tick_playing _ _ _ _ _ _ _ _ _ hp] at h ⊢
    dsimp only at h ⊢
    have hal := checkGameOver_playing_versus _ h
    rw [(checkGameOver_fields false _).1, (checkGameOver_fields false _).2.1]
    exact hal
  · rw [tick_terminal _ _ _ _ _ _ _ _ _ hp] at h
    exact absurd h hp

/-- If a solo tick ends still `playing`, the human came out with positive
lives. -/
theorem tick_alive_solo (p1IsAI p2IsAI : Bool) (p1Gen p2Gen : Input) (aiGen : ℕ → Input)
    (buf1 buf2 : Option Input) (s : GameSt)
    (h : (tick true p1IsAI p2IsAI p1Gen p2Gen aiGen buf1 buf2 s).1.gameState = GState.playing) :
    0 < (tick true p1IsAI p2IsAI p1Gen p2Gen aiGen buf1 buf2 s).1.player1.lives := by
  by_cases hp : s.gameState = GState.playing
  · rw [tick_playing _ _ _ _ _ _ _ _ _ hp] at h ⊢
    dsimp only at h ⊢
    have hal := checkGameOver_playing_solo _ h
    rw [(checkGameOver_fields true _).1]
    exact hal
  · rw [tick_terminal _ _ _ _ _ _ _ _ _ hp] at h
    exact absurd h hp

theorem tick_solo_ai_length (p1IsAI p2IsAI : Bool) (p1Gen p2Gen : Input) (aiGen : ℕ → Input)
    (buf1 buf2 : Option Input) (s : GameSt) (hp : s.gameState = GState.playing) :
    ((tick true p1IsAI p2IsAI p1Gen p2Gen aiGen buf1 buf2 s).1).aiPlayers.length =
      s.aiPlayers.length := by
  rw [tick_playing _ _ _ _ _ _ _ _ _ hp]
  dsimp only
  rw [(checkGameOver_fields true _).2.2.1, updateRespawnTimers_ai_length,
    ← List.Forall₂.length_eq (checkCollisions_rel true _).2.2, (tickBalls_fields _).2.2.1,
    tickUpdates_solo_ai, List.length_map, tickInputs_solo_ai, processAIList_length]

/-! ### Lives invariants (claim C2) -/

/-- The solo-mode lives invariant: lives are never negative (so never
displayed negative), and while the match is still `playing` the human has at
least one life. -/
def InvS (s : GameSt) : Prop :=
  0 ≤ s.player1.lives ∧
  (∀ (j : ℕ) (e : Player × ℤ), s.aiPlayers[j]? = some e → 0 ≤ e.1.lives) ∧
  (s.gameState = GState.playing → 1 ≤ s.player1.lives)

/-- The Versus lives invariant: lives never negative; while `playing`, both
combatants have at least one life. -/
def InvV (s : GameSt) : Prop :=
  0 ≤ s.player1.lives ∧ (∀ q : Player, s.player2 = some q → 0 ≤ q.lives) ∧
  (s.gameState = GState.playing →
    1 ≤ s.player1.lives ∧ ∀ q : Player, s.player2 = some q → 1 ≤ q.lives)

theorem tick_solo_inv (p1IsAI p2IsAI : Bool) (p1Gen p2Gen : Input) (aiGen : ℕ → Input)
    (buf1 buf2 : Option Input) (s : GameSt) (hInv : InvS s) :
    InvS (tick true p1IsAI p2IsAI p1Gen p2Gen aiGen buf1 buf2 s).1 := by
  by_cases hp : s.gameState = GState.playing
  case neg =>
    rw [tick_terminal _ _ _ _ _ _ _ _ _ hp]
    exact hInv
  case pos =>
    obtain ⟨h0, hai, h1⟩ := hInv
    refine ⟨?_, ?_, ?_⟩
    · rcases tick_p1_lives true p1IsAI p2IsAI p1Gen p2Gen aiGen buf1 buf2 s hp with h | h <;>
        rw [h]
      · exact h0
      · have := h1 hp
        omega
    · intro j e' he'
      have hlen := tick_solo_ai_length p1IsAI p2IsAI p1Gen p2Gen aiGen buf1 buf2 s hp
      have hj : j < s.aiPlayers.length := by
        have hj' : j < ((tick true p1IsAI p2IsAI p1Gen p2Gen aiGen buf1
            buf2 s).1).aiPlayers.length := by
          by_contra hge
          rw [List.getElem?_eq_none (by omega)] at he'
          cases he'
        omega
      have hsome : s.aiPlayers[j]? = some (s.aiPlayers.get ⟨j, hj⟩) := by
        rw [List.getElem?_eq_getElem hj]
        rfl
      obtain ⟨e'', h'', hn, _⟩ := tick_solo_ai_forward p1IsAI p2IsAI p1Gen p2Gen aiGen
        buf1 buf2 s hp j _ hsome
      rw [he'] at h''
      injection h'' with h''
      rw [← h''] at hn
      exact hn (hai j _ hsome)
    · intro hplay
      have := tick_alive_solo p1IsAI p2IsAI p1Gen p2Gen aiGen buf1 buf2 s hplay
      omega

theorem tick_versus_inv (p1IsAI p2IsAI : Bool) (p1Gen p2Gen : Input) (aiGen : ℕ → Input)
    (buf1 buf2 : Option Input) (s : GameSt) (hInv : InvV s) :
    InvV (tick false p1IsAI p2IsAI p1Gen p2Gen aiGen buf1 buf2 s).1 := by
  by_cases hp : s.gameState = GState.playing
  case neg =>
    rw [tick_terminal _ _ _ _ _ _ _ _ _ hp]
    exact hInv
  case pos =>
    obtain ⟨h0, h2, h1⟩ := hInv
    refine ⟨?_, ?_, ?_⟩
    · rcases tick_p1_lives false p1IsAI p2IsAI p1Gen p2Gen aiGen buf1 buf2 s hp with h | h <;>
        rw [h]
      · exact h0
      · have := (h1 hp).1
        omega
    · intro q' hq'
      cases hs2 : s.player2 with
      | none =>
        have := (tick_versus_p2_forward p1IsAI p2IsAI p1Gen p2Gen aiGen buf1 buf2 s hp).1 hs2
        rw [hq'] at this
        cases this
      | some q =>
        obtain ⟨q'', hq'', hl⟩ :=
          (tick_versus_p2_forward p1IsAI p2IsAI p1Gen p2Gen aiGen buf1 buf2 s hp).2 q hs2
        rw [hq'] at hq''
        injection hq'' with hq''
        have hq1 := (h1 hp).2 q hs2
        rcases hl with hl | hl <;> rw [hq''] <;> omega
    · intro hplay
      have hal := tick_alive_versus p1IsAI p2IsAI p1Gen p2Gen aiGen buf1 buf2 s hplay
      refine ⟨by omega, ?_⟩
      intro q hq
      have := hal.2 q hq
      omega

theorem initState_inv (level : ℕ) : InvS (initState true level) ∧ InvV (initState false level) := by
  constructor
  · refine ⟨by norm_num [initState, createPlayer], ?_, by norm_num [initState, createPlayer]⟩
    intro j e he
    have hmem : e ∈ (initState true level).aiPlayers := List.getElem?_mem he
    have haip : (initState true level).aiPlayers =
        createAIPlayers (if level = 0 then 1 else level) := rfl
    rw [haip] at hmem
    simp only [createAIPlayers, List.mem_map] at hmem
    obtain ⟨i, _, hi⟩ := hmem
    rw [← hi]
    norm_num [createPlayer]
  · refine ⟨by norm_num [initState, createPlayer], ?_, ?_⟩
    · intro q hq
      simp only [initState] at hq
      rw [if_neg (by simp)] at hq
      injection hq with hq
      rw [← hq]
      norm_num [createPlayer]
    · intro _
      refine ⟨by norm_num [initState, createPlayer], ?_⟩
      intro q hq
      simp only [initState] at hq
      rw [if_neg (by simp)] at hq
      injection hq with hq
      rw [← hq]
      norm_num [createPlayer]

/-- C2: once a combatant's lives reach 0 it is frozen and excluded.  (a) In
solo mode a dead AI entry (its `Player` record — position, vertical velocity,
invincibility state and timers — and its respawn timer) passes through a full
`tick` unchanged.  (b) A dead AI entry is untouched by the collision phase,
and if every AI is dead the whole collision phase is the identity on the
state.  (c) In Versus mode, under the lives invariant a combatant with 0
lives only occurs once the match has left `playing`, and then a `tick`
mutates nothing at all.  (d) The lives invariants (no combatant's lives ever
negative; while `playing`, alive) hold in the initial state of every level
and are preserved by every solo and every Versus tick, so lives are never
displayed as negative. -/
theorem c2_theorem :
    (∀ (p1IsAI p2IsAI : Bool) (p1Gen p2Gen : Input) (aiGen : ℕ → Input)
       (buf1 buf2 : Option Input) (s : GameSt) (j : ℕ) (e : Player × ℤ),
       s.aiPlayers[j]? = some e → e.1.lives ≤ 0 →
       ((tick true p1IsAI p2IsAI p1Gen p2Gen aiGen buf1 buf2 s).1).aiPlayers[j]? = some e) ∧
    (∀ (sp : Bool) (s : GameSt) (j : ℕ) (e : Player × ℤ),
       s.aiPlayers[j]? = some e → e.1.lives ≤ 0 →
       (checkCollisions sp s).aiPlayers[j]? = some e) ∧
    (∀ s : GameSt, s.player1.side = Side.left →
       (∀ e ∈ s.aiPlayers, e.1.lives ≤ 0) → (∀ b ∈ s.balls, b.owner = Side.left) →
       checkCollisions true s = s) ∧
    (∀ (p1IsAI p2IsAI : Bool) (p1Gen p2Gen : Input) (aiGen : ℕ → Input)
       (buf1 buf2 : Option Input) (s : GameSt), InvV s →
       (s.player1.lives ≤ 0 ∨ ∃ q : Player, s.player2 = some q ∧ q.lives ≤ 0) →
       tick false p1IsAI p2IsAI p1Gen p2Gen aiGen buf1 buf2 s = (s, buf1, buf2)) ∧
    (∀ level : ℕ, InvS (initState true level) ∧ InvV (initState false level)) ∧
    (∀ (p1IsAI p2IsAI : Bool) (p1Gen p2Gen : Input) (aiGen : ℕ → Input)
       (buf1 buf2 : Option Input) (s : GameSt),
       (InvS s → InvS (tick true p1IsAI p2IsAI p1Gen p2Gen aiGen buf1 buf2 s).1) ∧
       (InvV s → InvV (tick false p1IsAI p2IsAI p1Gen p2Gen aiGen buf1 buf2 s).1)) := by
  refine ⟨?_, ?_, ?_, ?_, ?_, ?_⟩
  · intro p1IsAI p2IsAI p1Gen p2Gen aiGen buf1 buf2 s j e he hd
    by_cases hp : s.gameState = GState.playing
    · obtain ⟨e', h', _, hfr⟩ :=
        tick_solo_ai_forward p1IsAI p2IsAI p1Gen p2Gen aiGen buf1 buf2 s hp j e he
      rw [h', hfr hd]
    · rw [tick_terminal _ _ _ _ _ _ _ _ _ hp]
      exact he
  · intro sp s j e he hd
    obtain ⟨e', h', hrel⟩ := forall₂_get (checkCollisions_rel sp s).2.2 j e he
    rw [h', HitRel_dead e e' hrel hd]
  · intro s hside hdead hown
    exact checkCollisions_all_dead s hside hdead hown
  · intro p1IsAI p2IsAI p1Gen p2Gen aiGen buf1 buf2 s hInv hdead
    have hp : ¬s.gameState = GState.playing := by
      intro hp
      obtain ⟨-, -, h1⟩ := hInv
      obtain ⟨hl1, hl2⟩ := h1 hp
      rcases hdead with hd | ⟨q, hq, hd⟩
      · omega
      · have := hl2 q hq
        omega
    exact tick_terminal _ _ _ _ _ _ _ _ _ hp
  · exact initState_inv
  · intro p1IsAI p2IsAI p1Gen p2Gen aiGen buf1 buf2 s
    exact ⟨tick_solo_inv p1IsAI p2IsAI p1Gen p2Gen aiGen buf1 buf2 s,
      tick_versus_inv p1IsAI p2IsAI p1Gen p2Gen aiGen buf1 buf2 s⟩

/-- Witness for C2 at concrete levels: the lives invariants hold in the
freshly constructed solo level-3 and Versus states. -/
theorem c2_witness : InvS (initState true 3) ∧ InvV (initState false 1) :=
  ⟨(c2_theorem.2.2.2.2.1 3).1, (c2_theorem.2.2.2.2.1 1).2⟩

/-! ### Respawn countdown through full ticks (claim C3) -/

theorem tickInputs_respawnP1 (sp p1IsAI p2IsAI : Bool) (p1Gen p2Gen : Input) (aiGen : ℕ → Input)
    (buf1 buf2 : Option Input) (s : GameSt) :
    (tickInputs sp p1IsAI p2IsAI p1Gen p2Gen aiGen buf1 buf2 s).1.respawnP1 =
      (processPlayerInput p1IsAI p1Gen buf1 s.player1 s.balls s.respawnP1).respawn := by
  unfold tickInputs
  dsimp only
  split_ifs
  · rfl
  · cases hp2 : s.player2 with
    | some q => rfl
    | none => rfl

theorem tickUpdates_respawnP1 (sp p1IsAI p2IsAI : Bool) (s : GameSt) :
    (tickUpdates sp p1IsAI p2IsAI s).respawnP1 = s.respawnP1 := by
  unfold tickUpdates
  dsimp only
  split_ifs
  · rfl
  · cases hp2 : s.player2 with
    | some q => rfl
    | none => rfl

theorem updateRespawnTimers_ai_alive (s : GameSt) (j : ℕ) (e : Player × ℤ)
    (he : s.aiPlayers[j]? = some e) (hl : 0 < e.1.lives) :
    (updateRespawnTimers true s).aiPlayers[j]? =
      some ({ e.1 with hasBall := (respawnStep e.1.hasBall e.2).1 },
        (respawnStep e.1.hasBall e.2).2) := by
  unfold updateRespawnTimers
  dsimp only
  rw [if_pos (show true = true from rfl)]
  rw [List.getElem?_map, he]
  simp only [Option.map_some']
  rw [if_neg (by omega)]

/-- While a playing tick finds player1 without a ball, the tick applies to the
held-ball flag and countdown exactly one `respawnStep` of the respawn
subsystem. -/
theorem tick_respawn_p1 (sp p1IsAI p2IsAI : Bool) (p1Gen p2Gen : Input) (aiGen : ℕ → Input)
    (buf1 buf2 : Option Input) (s : GameSt) (hp : s.gameState = GState.playing)
    (hb : s.player1.hasBall = false) :
    (tick sp p1IsAI p2IsAI p1Gen p2Gen aiGen buf1 buf2 s).1.player1.hasBall =
      (respawnStep false s.respawnP1).1 ∧
    (tick sp p1IsAI p2IsAI p1Gen p2Gen aiGen buf1 buf2 s).1.respawnP1 =
      (respawnStep false s.respawnP1).2 := by
  rw [tick_playing _ _ _ _ _ _ _ _ _ hp]
  dsimp only
  have h1p := (tickInputs_p1 sp p1IsAI p2IsAI p1Gen p2Gen aiGen buf1 buf2 s).1
  have h1r := tickInputs_respawnP1 sp p1IsAI p2IsAI p1Gen p2Gen aiGen buf1 buf2 s
  rw [processPlayerInput_no_ball p1IsAI p1Gen buf1 s.player1 s.balls s.respawnP1 hb]
    at h1p h1r
  dsimp only at h1p h1r
  have hb1 : (tickInputs sp p1IsAI p2IsAI p1Gen p2Gen aiGen buf1 buf2 s).1.player1.hasBall =
      false := by
    rw [h1p, moveSteps_hasBall]
    exact hb
  have hb2 : (tickUpdates sp p1IsAI p2IsAI
      (tickInputs sp p1IsAI p2IsAI p1Gen p2Gen aiGen buf1 buf2 s).1).player1.hasBall =
      false := by
    rw [(tickUpdates_p1 sp p1IsAI p2IsAI _).1, updatePlayer_hasBall]
    exact hb1
  have hr2 : (tickUpdates sp p1IsAI p2IsAI
      (tickInputs sp p1IsAI p2IsAI p1Gen p2Gen aiGen buf1 buf2 s).1).respawnP1 =
      s.respawnP1 := by
    rw [tickUpdates_respawnP1]
    exact h1r
  have hb4 : (checkCollisions sp (tickBalls (tickUpdates sp p1IsAI p2IsAI
      (tickInputs sp p1IsAI p2IsAI p1Gen p2Gen aiGen buf1 buf2 s).1))).player1.hasBall =
      false := by
    rw [HitRelP_hasBall _ _ (checkCollisions_rel sp _).1, (tickBalls_fields _).1]
    exact hb2
  have hr4 : (checkCollisions sp (tickBalls (tickUpdates sp p1IsAI p2IsAI
      (tickInputs sp p1IsAI p2IsAI p1Gen p2Gen aiGen buf1 buf2 s).1))).respawnP1 =
      s.respawnP1 := by
    rw [(checkCollisions_fields sp _).2.2.1, (tickBalls_fields _).2.2.2.2.1]
    exact hr2
  have h5 := updateRespawnTimers_p1 sp (checkCollisions sp (tickBalls (tickUpdates sp p1IsAI
    p2IsAI (tickInputs sp p1IsAI p2IsAI p1Gen p2Gen aiGen buf1 buf2 s).1)))
  rw [hb4, hr4] at h5
  constructor
  · rw [(checkGameOver_fields sp _).1]
    exact h5.1
  · rw [(checkGameOver_fields sp _).2.2.2.1]
    exact h5.2.1

/-- The countdown trajectory after a throw: the pair (held-ball flag, timer)
after `n` respawn steps, starting from the just-thrown state
`(false, RESPAWN_TIME)`. -/
def respawnIter (n : ℕ) : Bool × ℤ :=
  (fun pr : Bool × ℤ => respawnStep pr.1 pr.2)^[n] (false, RESPAWN_TIME)

set_option maxRecDepth 4000 in
/-- C3: a combatant that throws has its held-ball flag cleared and its
countdown set to `RESPAWN_TIME = 90` (throwBall); every playing tick then
performs exactly one `respawnStep` on the flag and countdown (shown for
player1 through a full `tick`, and for the Versus player2 and each live solo
AI through `updateRespawnTimers`); along the resulting trajectory
`respawnIter` the combatant holds no ball on all of respawn steps 0..89 after
the throw and regains the ball exactly at step 90, never earlier. -/
theorem c3_theorem :
    (∀ (p : Player) (balls : List Ball) (rt : ℤ), p.hasBall = true →
      (throwBall p balls rt).1.hasBall = false ∧
      (throwBall p balls rt).2.2 = RESPAWN_TIME) ∧
    RESPAWN_TIME = 90 ∧
    (∀ n : ℕ, n < 90 → (respawnIter n).1 = false) ∧
    respawnIter 90 = (true, 0) ∧
    (∀ (sp p1IsAI p2IsAI : Bool) (p1Gen p2Gen : Input) (aiGen : ℕ → Input)
       (buf1 buf2 : Option Input) (s : GameSt),
       s.gameState = GState.playing → s.player1.hasBall = false →
       (tick sp p1IsAI p2IsAI p1Gen p2Gen aiGen buf1 buf2 s).1.player1.hasBall =
         (respawnStep false s.respawnP1).1 ∧
       (tick sp p1IsAI p2IsAI p1Gen p2Gen aiGen buf1 buf2 s).1.respawnP1 =
         (respawnStep false s.respawnP1).2) ∧
    (∀ (s : GameSt) (q : Player), s.player2 = some q →
      (updateRespawnTimers false s).player2 =
        some { q with hasBall := (respawnStep q.hasBall s.respawnP2).1 } ∧
      (updateRespawnTimers false s).respawnP2 = (respawnStep q.hasBall s.respawnP2).2) ∧
    (∀ (s : GameSt) (j : ℕ) (e : Player × ℤ), s.aiPlayers[j]? = some e → 0 < e.1.lives →
      (updateRespawnTimers true s).aiPlayers[j]? =
        some ({ e.1 with hasBall := (respawnStep e.1.hasBall e.2).1 },
          (respawnStep e.1.hasBall e.2).2)) := by
  refine ⟨?_, rfl, by decide, by decide, ?_, ?_, ?_⟩
  · intro p balls rt h
    exact ⟨(throwBall_of_hasBall p balls rt h).1, (throwBall_of_hasBall p balls rt h).2.1⟩
  · intro sp p1IsAI p2IsAI p1Gen p2Gen aiGen buf1 buf2 s hp hb
    exact tick_respawn_p1 sp p1IsAI p2IsAI p1Gen p2Gen aiGen buf1 buf2 s hp hb
  · intro s q h2
    exact updateRespawnTimers_p2 s q h2
  · intro s j e he hl
    exact updateRespawnTimers_ai_alive s j e he hl

/-- Witness for C3 at concrete steps: one step before resupply the combatant
still has no ball, and at step 90 the ball is back with the timer at 0. -/
theorem c3_witness : (respawnIter 89).1 = false ∧ respawnIter 90 = (true, 0) :=
  ⟨c3_theorem.2.2.1 89 (by norm_num), c3_theorem.2.2.2.1⟩
